import Mathlib

/-!
Verification development for the MiniTemplator template engine
(TypeScript sources: MiniTemplatorParser, MiniTemplator, MiniTemplatorCache).

The template text is embedded as `List Char` with `Nat`/`Int` character
positions (the concrete templates used below are ASCII, where JavaScript
UTF-16 code-unit positions coincide with character positions).  JavaScript
numbers holding the `-1` sentinel are embedded as `Int`.  Loops of the
source become fuel-indexed recursions; running out of fuel is a separate,
distinguishable outcome (`fuelOut`), never identified with any behaviour
of the source program.
-/

set_option maxRecDepth 8192

namespace MT

/-! ### JavaScript string helpers (List Char versions of the runtime operations) -/

/-- True when `pat` is an initial segment of `s`
(the check JavaScript performs at each candidate position of `indexOf`). -/
def headMatches : List Char → List Char → Bool
  | [], _ => true
  | _ :: _, [] => false
  | p :: ps, c :: cs => p == c && headMatches ps cs

/-- Scan helper for `jsIndexOf`: first position ≥ `idx` (counting within `cur`)
where `pat` matches; `-1` when there is none. -/
def indexOfGo (pat : List Char) : List Char → Nat → Int
  | cur, idx =>
    if headMatches pat cur then (idx : Int)
    else
      match cur with
      | [] => -1
      | _ :: t => indexOfGo pat t (idx + 1)

/-- `String.prototype.indexOf(pat, start)`: first occurrence of `pat` in `s`
at a position ≥ `start`, or `-1`.  A negative `start` is clamped to 0,
matching JavaScript. -/
def jsIndexOf (s pat : List Char) (start : Int) : Int :=
  indexOfGo pat (s.drop start.toNat) start.toNat

/-- `String.prototype.substring(a, b)` for the calls made by the source,
all of which satisfy `0 ≤ a ≤ b` (so the clamping/swapping cases of the
JavaScript method never apply). -/
def jsSubstring (s : List Char) (a b : Int) : List Char :=
  (s.take b.toNat).drop a.toNat

/-- Source `isWhiteSpaceAt`: character code ≤ 32. -/
def isWsChar (c : Char) : Bool := c.toNat ≤ 32

/-- Source `skipBlanks`: first position ≥ `p0` holding a non-blank, or the length. -/
def skipBlanks (s : List Char) (p0 : Nat) : Nat :=
  p0 + ((s.drop p0).takeWhile isWsChar).length

/-- Source `skipNonBlanks`. -/
def skipNonBlanks (s : List Char) (p0 : Nat) : Nat :=
  p0 + ((s.drop p0).takeWhile (fun c => !isWsChar c)).length

/-- Source `isRestOfStringBlank`. -/
def isRestOfStringBlank (s : List Char) (p : Nat) : Bool :=
  decide (skipBlanks s p ≥ s.length)

/-- Source `isStringBlank`. -/
def isStringBlank (s : List Char) : Bool :=
  isRestOfStringBlank s 0

/-- `String.prototype.trim` restricted to the ASCII whitespace actually
occurring in the templates of this development (codes ≤ 32). -/
def jsTrim (s : List Char) : List Char :=
  ((s.dropWhile isWsChar).reverse.dropWhile isWsChar).reverse

/-- Pack a character list back into a `String` (for names and messages). -/
def listToString (s : List Char) : String := String.mk s

/-! ### JavaScript values

Condition variables and `setVariable` arguments have type `any` in the
source; the values exercised by the engine are strings, numbers, booleans,
`null` and `undefined`. -/

inductive JSValue where
  | str (s : String)
  | num (n : Int)
  | bool (b : Bool)
  | null
  | undefined
deriving DecidableEq, Repr

/-- JavaScript truthiness (`Boolean(v)`) for the embedded value universe. -/
def truthy : JSValue → Bool
  | .str s => s ≠ ""
  | .num n => n ≠ 0
  | .bool b => b
  | .null => false
  | .undefined => false

/-- JavaScript `String(v)` / template-literal coercion for the embedded values. -/
def jsValueToString : JSValue → String
  | .str s => s
  | .num n => toString n
  | .bool b => if b then "true" else "false"
  | .null => "null"
  | .undefined => "undefined"

/-- Source `formatVariableValue`: strings pass through, `undefined` and
`null` become the empty string, other values are stringified. -/
def formatVariableValue : JSValue → String
  | .str s => s
  | .null => ""
  | .undefined => ""
  | .num n => toString n
  | .bool b => if b then "true" else "false"

/-- Source `escapeHtml`: the value is formatted and the five special HTML
characters are replaced by entities.  The source builds the result from
unchanged spans plus replacements; character by character the output is the
concatenation embedded here. -/
def escapeHtmlChar (c : Char) : String :=
  if c == '"' then "&quot;"
  else if c == '&' then "&amp;"
  else if c == Char.ofNat 39 then "&#39;"
  else if c == '<' then "&lt;"
  else if c == '>' then "&gt;"
  else String.mk [c]

def escapeHtml (v : JSValue) : String :=
  String.join ((formatVariableValue v).data.map escapeHtmlChar)

/-- Decidable equality for `Except` results (absent from the core library),
used to settle concrete runs of the embedded functions. -/
instance {ε α : Type} [DecidableEq ε] [DecidableEq α] : DecidableEq (Except ε α) := fun x y =>
  match x, y with
  | .ok a, .ok b =>
    match decEq a b with
    | isTrue h => isTrue (h ▸ rfl)
    | isFalse h => isFalse (fun hh => h (Except.ok.inj hh))
  | .error a, .error b =>
    match decEq a b with
    | isTrue h => isTrue (h ▸ rfl)
    | isFalse h => isFalse (fun hh => h (Except.error.inj hh))
  | .ok _, .error _ => isFalse (fun hh => Except.noConfusion hh)
  | .error _, .ok _ => isFalse (fun hh => Except.noConfusion hh)

/-! ### Parser data model (MiniTemplatorParser.ts) -/

/-- Errors a parse can end with.  `stx` is `TemplateSyntaxError`;
`generic` is the plain `Error` thrown by the subtemplate size guard;
`assertFail` stands for the plain errors internal `assert`/array-access
failures would raise; `load` is a rejected template load (the loader is
embedded as a partial map); `fuelOut` is the embedding's loop-fuel
artifact and corresponds to no behaviour of the source. -/
inductive PErr where
  | stx (msg : String)
  | generic (msg : String)
  | assertFail
  | load (name : String)
  | fuelOut
deriving DecidableEq, Repr

/-- Source `VarRefTabRec`.  `blockNo`/`blockVarNo` are written by the
association pass; until then they hold the placeholder 0 (the source
leaves them `undefined`, and never reads them before the pass sets them). -/
structure VarRefRec where
  varNo : Nat
  tPosBegin : Nat
  tPosEnd : Nat
  blockNo : Nat := 0
  blockVarNo : Nat := 0
deriving DecidableEq, Repr

/-- Source `BlockTabRec`. -/
structure BlockRec where
  blockName : Option String := none
  nextWithSameName : Int := -1
  tPosBegin : Nat := 0
  tPosContentsBegin : Nat := 0
  tPosContentsEnd : Nat := 0
  tPosEnd : Nat := 0
  nestingLevel : Nat := 0
  parentBlockNo : Int := -1
  definitionIsOpen : Bool := true
  blockVarNoToVarNoMap : List Nat := []
  firstVarRefNo : Int := -1
  dummy : Bool := false
deriving DecidableEq, Repr

/-- Source `ParsedTemplate`, with the two name-lookup closures replaced by
the functions below: the parser's `varNameToNoMap` maps each name to its
(unique) index in `varTab`, and `blockNameToNoMap` maps each block name to
the largest block number carrying it (the map entry is overwritten at each
registration). -/
structure ParsedTemplate where
  templateText : List Char
  varTab : List String
  varRefTab : List VarRefRec
  blockTab : List BlockRec
deriving DecidableEq, Repr

/-- First index of `name` in `varTab`, or `-1`: the content of the
parser's `varNameToNoMap`. -/
def idxOfStr : List String → String → Int
  | [], _ => -1
  | s :: t, n => if s = n then 0 else
      match idxOfStr t n with
      | -1 => -1
      | i => i + 1

/-- Largest block number whose `blockName` is `name`, or `-1`: the content
of the parser's `blockNameToNoMap` after all registrations. -/
def lookupBlockNoAux : List BlockRec → String → Nat → Int → Int
  | [], _, _, acc => acc
  | b :: t, n, i, acc =>
      lookupBlockNoAux t n (i + 1) (if b.blockName = some n then (i : Int) else acc)

def ParsedTemplate.lookupVariableName (t : ParsedTemplate) (name : String) : Int :=
  idxOfStr t.varTab name

def ParsedTemplate.lookupBlockName (t : ParsedTemplate) (name : String) : Int :=
  lookupBlockNoAux t.blockTab name 0 (-1)

/-- Source `ParserParms`.  The asynchronous loader becomes a partial map
from template names to texts; `none` models a rejected load. -/
structure ParserParms where
  mainTemplateName : String
  conditionVars : List (String × JSValue)
  shortFormEnabled : Bool
  loadTemplateFile : String → Option (List Char)

/-- First value bound to `name` in an association list (the `Map.get` of
the embedded condition-variable map; keys are unique in every map built
by the source). -/
def lookupAssoc : List (String × JSValue) → String → Option JSValue
  | [], _ => none
  | (k, v) :: t, n => if k = n then some v else lookupAssoc t n

/-- Parser working state (the private fields of class `Parser`).
`conditionVarNames`/`conditionVarValues` of the source are the key resp.
value projections of `pParms.conditionVars` and are not duplicated here. -/
structure PState where
  pParms : ParserParms
  templateText : List Char
  varTab : List String
  varRefTab : List VarRefRec
  blockTab : List BlockRec
  currentNestingLevel : Nat
  openBlocksTab : List Nat
  condLevel : Int
  condEnabled : List Bool
  condPassed : List Bool
  resumeCmdParsingFromStart : Bool

def maxNestingLevel : Nat := 30
def maxCondLevels : Nat := 30
def maxInclTemplateSize : Nat := 1000000
def cmdStartStr : List Char := "<!--".data
def cmdEndStr : List Char := "-->".data
def cmdStartStrShort : List Char := "<$".data
def cmdEndStrShort : List Char := ">".data
def varStartStr : List Char := "$\x7b".data
def closeBraceStr : List Char := "\x7d".data

def dfltVarRef : VarRefRec := { varNo := 0, tPosBegin := 0, tPosEnd := 0 }

def oversizeErrorMsg : String :=
  "Subtemplate include aborted because the internal template string would become longer than 1000000 characters."

/-! ### Parser operations -/

/-- Update block record `i` in place (every write of the source is to an
existing entry, so the out-of-range no-op of `List.set` is never taken). -/
def updBlock (st : PState) (i : Nat) (f : BlockRec → BlockRec) : PState :=
  { st with blockTab := st.blockTab.set i (f (st.blockTab.getD i {})) }

def pLookupBlockName (st : PState) (n : String) : Int :=
  lookupBlockNoAux st.blockTab n 0 (-1)

def pLookupVariableName (st : PState) (n : String) : Int :=
  idxOfStr st.varTab n

/-- Source `registerBlock`.  The `tPos*` fields are written by the caller
afterwards, exactly as in the source. -/
def registerBlock (st : PState) (blockName : Option String) : Nat × PState :=
  let blockNo := st.blockTab.length
  let next : Int :=
    match blockName with
    | some n => pLookupBlockName st n
    | none => -1
  let parent : Int :=
    if st.currentNestingLevel > 0 then
      (st.openBlocksTab.getD (st.currentNestingLevel - 1) 0 : Int)
    else -1
  let btr : BlockRec :=
    { blockName := blockName
      nextWithSameName := next
      nestingLevel := st.currentNestingLevel
      parentBlockNo := parent
      definitionIsOpen := true
      firstVarRefNo := -1
      blockVarNoToVarNoMap := []
      dummy := false }
  (blockNo, { st with blockTab := st.blockTab ++ [btr] })

/-- The block-table update of source `excludeTemplateRange`: extend an
adjacent trailing dummy block, or register a fresh dummy covering
`[tPosBegin, tPosEnd)` (the registration plus the field assignments of the
source, which only ever touch the block table). -/
def excludeRangeTab (st : PState) (tPosBegin tPosEnd : Nat) : List BlockRec :=
  let freshDummy : Unit → List BlockRec := fun _ =>
    match registerBlock st none with
    | (blockNo, st2) =>
      st2.blockTab.set blockNo
        (let b := st2.blockTab.getD blockNo {}
         { b with tPosBegin := tPosBegin, tPosContentsBegin := tPosBegin,
                  tPosContentsEnd := tPosEnd, tPosEnd := tPosEnd,
                  definitionIsOpen := false, dummy := true })
  if st.blockTab.length > 0 then
    let last := st.blockTab.getD (st.blockTab.length - 1) {}
    if last.dummy ∧ last.tPosEnd = tPosBegin then
      st.blockTab.set (st.blockTab.length - 1)
        { last with tPosContentsEnd := tPosEnd, tPosEnd := tPosEnd }
    else freshDummy ()
  else freshDummy ()

/-- Source `excludeTemplateRange` (all its writes land in the block table). -/
def excludeTemplateRange (st : PState) (tPosBegin tPosEnd : Nat) : PState :=
  { st with blockTab := excludeRangeTab st tPosBegin tPosEnd }

/-- Source `isCondEnabled`. -/
def isCondEnabled (st : PState) (condLevel2 : Int) : Bool :=
  if condLevel2 < 0 then true else st.condEnabled.getD condLevel2.toNat false

/-- Source `conditionalExclude`: excludes the range and returns `true`
when the current conditional level is disabled. -/
def conditionalExclude (st : PState) (tPosBegin tPosEnd : Nat) : Bool × PState :=
  if isCondEnabled st st.condLevel then (false, st)
  else (true, excludeTemplateRange st tPosBegin tPosEnd)

/-- Models the source `evaluateCondition`, which hands the expression text
to the JavaScript engine (`new Function`) with the condition variables as
parameters.  For the single-identifier expressions exercised in this
development that evaluation returns the named condition variable's value
coerced to boolean, and raises a `ReferenceError` — wrapped into a
`TemplateSyntaxError` by the source's catch block — when the identifier is
not among the declared condition variables. -/
def evaluateCondition (st : PState) (condExpr : List Char) : Except PErr Bool :=
  match lookupAssoc st.pParms.conditionVars (listToString (jsTrim condExpr)) with
  | some v => .ok (truthy v)
  | none =>
      .error (.stx ("Invalid condition expression \"" ++ listToString condExpr ++ "\"."))

/-- Source `processIfCmd`. -/
def processIfCmd (st : PState) (parms : List Char) (cmdTPosBegin cmdTPosEnd : Nat) :
    Except PErr PState :=
  let st := excludeTemplateRange st cmdTPosBegin cmdTPosEnd
  if st.condLevel ≥ (maxCondLevels : Int) - 1 then
    .error (.stx "Too many nested $if commands.")
  else
    let lvl := st.condLevel + 1
    match (if isCondEnabled st (lvl - 1) then evaluateCondition st parms
           else .ok false) with
    | .error e => .error e
    | .ok enabled =>
      .ok { st with condLevel := lvl,
                    condEnabled := st.condEnabled.set lvl.toNat enabled,
                    condPassed := st.condPassed.set lvl.toNat enabled }

/-- Source `processElseIfCmd`.  The `&&` chain of the source short-circuits,
so the expression is only evaluated when the enclosing level is enabled and
no branch at this level has been taken yet. -/
def processElseIfCmd (st : PState) (parms : List Char) (cmdTPosBegin cmdTPosEnd : Nat) :
    Except PErr PState :=
  let st := excludeTemplateRange st cmdTPosBegin cmdTPosEnd
  if st.condLevel < 0 then
    .error (.stx "$elseIf without matching $if.")
  else
    match (if isCondEnabled st (st.condLevel - 1)
              ∧ !(st.condPassed.getD st.condLevel.toNat false) then
             evaluateCondition st parms
           else .ok false) with
    | .error e => .error e
    | .ok enabled =>
      let st := { st with condEnabled := st.condEnabled.set st.condLevel.toNat enabled }
      .ok (if enabled then
             { st with condPassed := st.condPassed.set st.condLevel.toNat true }
           else st)

/-- Source `processElseCmd`. -/
def processElseCmd (st : PState) (parms : List Char) (cmdTPosBegin cmdTPosEnd : Nat) :
    Except PErr PState :=
  let st := excludeTemplateRange st cmdTPosBegin cmdTPosEnd
  if !isStringBlank parms then
    .error (.stx "Invalid parameters for $else command.")
  else if st.condLevel < 0 then
    .error (.stx "$else without matching $if.")
  else
    let enabled := isCondEnabled st (st.condLevel - 1)
                     && !(st.condPassed.getD st.condLevel.toNat false)
    let st := { st with condEnabled := st.condEnabled.set st.condLevel.toNat enabled }
    .ok (if enabled then
           { st with condPassed := st.condPassed.set st.condLevel.toNat true }
         else st)

/-- Source `processEndIfCmd`. -/
def processEndIfCmd (st : PState) (parms : List Char) (cmdTPosBegin cmdTPosEnd : Nat) :
    Except PErr PState :=
  let st := excludeTemplateRange st cmdTPosBegin cmdTPosEnd
  if !isStringBlank parms then
    .error (.stx "Invalid parameters for $endIf command.")
  else if st.condLevel < 0 then
    .error (.stx "$endif without matching $if.")
  else
    .ok { st with condLevel := st.condLevel - 1 }

/-- Source `processBeginBlockCmd`. -/
def processBeginBlockCmd (st : PState) (parms : List Char) (cmdTPosBegin cmdTPosEnd : Nat) :
    Except PErr PState :=
  match conditionalExclude st cmdTPosBegin cmdTPosEnd with
  | (true, st) => .ok st
  | (false, st) =>
    let p0 := skipBlanks parms 0
    if p0 ≥ parms.length then
      .error (.stx ("Missing block name in $beginBlock command in template at offset "
                    ++ toString cmdTPosBegin ++ "."))
    else
      let p := skipNonBlanks parms p0
      let blockName := listToString (jsSubstring parms (p0 : Int) (p : Int))
      if !isRestOfStringBlank parms p then
        .error (.stx ("Extra parameter in $beginBlock command in template at offset "
                      ++ toString cmdTPosBegin ++ "."))
      else
        let (blockNo, st) := registerBlock st (some blockName)
        let st := updBlock st blockNo (fun b =>
          { b with tPosBegin := cmdTPosBegin, tPosContentsBegin := cmdTPosEnd })
        let st := { st with
          openBlocksTab := st.openBlocksTab.set st.currentNestingLevel blockNo,
          currentNestingLevel := st.currentNestingLevel + 1 }
        if st.currentNestingLevel > maxNestingLevel then
          .error (.stx ("Block nesting overflow for block \"" ++ blockName
                        ++ "\" in template at offset " ++ toString cmdTPosBegin ++ "."))
        else .ok st

/-- Source `processEndBlockCmd`.  The nesting level is decremented before
the consistency checks, as in the source; it is always ≥ 1 at this point
because the implicit main block stays open during command parsing. -/
def processEndBlockCmd (st : PState) (parms : List Char) (cmdTPosBegin cmdTPosEnd : Nat) :
    Except PErr PState :=
  match conditionalExclude st cmdTPosBegin cmdTPosEnd with
  | (true, st) => .ok st
  | (false, st) =>
    let p0 := skipBlanks parms 0
    if p0 ≥ parms.length then
      .error (.stx ("Missing block name in $endBlock command in template at offset "
                    ++ toString cmdTPosBegin ++ "."))
    else
      let p := skipNonBlanks parms p0
      let blockName := listToString (jsSubstring parms (p0 : Int) (p : Int))
      if !isRestOfStringBlank parms p then
        .error (.stx ("Extra parameter in $endBlock command in template at offset "
                      ++ toString cmdTPosBegin ++ "."))
      else
        let blockNo := pLookupBlockName st blockName
        if blockNo = -1 then
          .error (.stx ("Undefined block name \"" ++ blockName
                        ++ "\" in $endBlock command in template at offset "
                        ++ toString cmdTPosBegin ++ "."))
        else
          let st := { st with currentNestingLevel := st.currentNestingLevel - 1 }
          let btr := st.blockTab.getD blockNo.toNat {}
          if !btr.definitionIsOpen then
            .error (.stx ("Multiple $endBlock commands for block \"" ++ blockName
                          ++ "\" in template at offset " ++ toString cmdTPosBegin ++ "."))
          else if btr.nestingLevel ≠ st.currentNestingLevel then
            .error (.stx ("Block nesting level mismatch at $endBlock command for block \""
                          ++ blockName ++ "\" in template at offset "
                          ++ toString cmdTPosBegin ++ "."))
          else
            .ok (updBlock st blockNo.toNat (fun b =>
              { b with tPosContentsEnd := cmdTPosBegin, tPosEnd := cmdTPosEnd,
                       definitionIsOpen := false }))

/-- Source `checkBlockDefinitionsComplete`.  The loop reports the open
block with the lowest number; an unnamed open block would print as
`undefined` in the JavaScript template literal. -/
def checkBlockDefinitionsComplete (st : PState) : Except PErr PState :=
  match st.blockTab.find? (·.definitionIsOpen) with
  | some btr =>
      .error (.stx ("Missing $endBlock command in template for block \""
                    ++ btr.blockName.getD "undefined" ++ "\"."))
  | none =>
      if st.currentNestingLevel ≠ 0 then
        .error (.stx "Block nesting level error at end of template.")
      else .ok st

/-- Source `insertSubTemplate`.  The size guard throws a plain `Error`
(`generic`), not a `TemplateSyntaxError`. -/
def insertSubTemplate (st : PState) (subTemplateName : String) (tPos1 tPos2 : Nat) :
    Except PErr PState :=
  match st.pParms.loadTemplateFile subTemplateName with
  | none => .error (.load subTemplateName)
  | some subText =>
    if st.templateText.length + subText.length > maxInclTemplateSize then
      .error (.generic oversizeErrorMsg)
    else
      .ok { st with
        templateText := jsSubstring st.templateText 0 (tPos1 : Int)
                          ++ subText ++ st.templateText.drop tPos2,
        resumeCmdParsingFromStart := true }

/-- Source `processIncludeCmd`. -/
def processIncludeCmd (st : PState) (parms : List Char) (cmdTPosBegin cmdTPosEnd : Nat) :
    Except PErr PState :=
  match conditionalExclude st cmdTPosBegin cmdTPosEnd with
  | (true, st) => .ok st
  | (false, st) =>
    let p0 := skipBlanks parms 0
    if p0 ≥ parms.length then
      .error (.stx ("Missing subtemplate name in $include command in template at offset "
                    ++ toString cmdTPosBegin ++ "."))
    else
      let quoted := parms.getD p0 (Char.ofNat 0) == '"'
      let p0q := if quoted then p0 + 1 else p0
      let pv : Int :=
        if quoted then jsIndexOf parms "\"".data (p0q : Int)
        else (skipNonBlanks parms p0 : Int)
      if quoted ∧ pv = -1 then
        .error (.stx ("Missing closing quote for subtemplate name in $include command in template at offset "
                      ++ toString cmdTPosBegin ++ "."))
      else
        let subTemplateName := listToString (jsSubstring parms (p0q : Int) pv)
        let pAfter := pv.toNat + 1
        if !isRestOfStringBlank parms pAfter then
          .error (.stx ("Extra parameter in $include command in template at offset "
                        ++ toString cmdTPosBegin ++ "."))
        else insertSubTemplate st subTemplateName cmdTPosBegin cmdTPosEnd

/-- Wrap a command-processing result as a handled (`true`) command. -/
def tagHandled (r : Except PErr PState) : Except PErr (Bool × PState) :=
  match r with
  | .error e => .error e
  | .ok s => .ok (true, s)

/-- Source `processTemplateCommand`: dispatch on the command word.
Returns `false` when the text is not a command and should be treated as
ordinary template text. -/
def processTemplateCommand (st : PState) (cmdLine : List Char) (cmdTPosBegin cmdTPosEnd : Nat) :
    Except PErr (Bool × PState) :=
  let p0 := skipBlanks cmdLine 0
  if p0 ≥ cmdLine.length then .ok (false, st)
  else
    let p := skipNonBlanks cmdLine p0
    let cmd := jsSubstring cmdLine (p0 : Int) (p : Int)
    let parms := cmdLine.drop p
    if cmd = "$beginBlock".data then
      tagHandled (processBeginBlockCmd st parms cmdTPosBegin cmdTPosEnd)
    else if cmd = "$endBlock".data then
      tagHandled (processEndBlockCmd st parms cmdTPosBegin cmdTPosEnd)
    else if cmd = "$include".data then
      tagHandled (processIncludeCmd st parms cmdTPosBegin cmdTPosEnd)
    else if cmd = "$if".data then
      tagHandled (processIfCmd st parms cmdTPosBegin cmdTPosEnd)
    else if cmd = "$elseIf".data then
      tagHandled (processElseIfCmd st parms cmdTPosBegin cmdTPosEnd)
    else if cmd = "$else".data then
      tagHandled (processElseCmd st parms cmdTPosBegin cmdTPosEnd)
    else if cmd = "$endIf".data then
      tagHandled (processEndIfCmd st parms cmdTPosBegin cmdTPosEnd)
    else if headMatches "$".data cmd ∧ ¬ (headMatches "$\x7b".data cmd = true) then
      .error (.stx ("Unknown command \"" ++ listToString cmd
                    ++ "\" in template at offset " ++ toString cmdTPosBegin ++ "."))
    else .ok (false, st)

/-- Source `processShortFormTemplateCommand`. -/
def processShortFormTemplateCommand (st : PState) (cmdLine : List Char)
    (cmdTPosBegin cmdTPosEnd : Nat) : Except PErr (Bool × PState) :=
  let p0 := skipBlanks cmdLine 0
  if p0 ≥ cmdLine.length then .ok (false, st)
  else
    let cmd1 := cmdLine.getD p0 (Char.ofNat 0)
    let p1 := p0 + 1
    let p :=
      if cmd1 == '/' ∧ p1 < cmdLine.length ∧ !isWsChar (cmdLine.getD p1 (Char.ofNat 0)) then
        p1 + 1
      else p1
    let cmd := jsSubstring cmdLine (p0 : Int) (p : Int)
    let parms := jsTrim (cmdLine.drop p)
    if cmd = "?".data then
      tagHandled (processIfCmd st parms cmdTPosBegin cmdTPosEnd)
    else if cmd = ":".data then
      if parms.length > 0 then
        tagHandled (processElseIfCmd st parms cmdTPosBegin cmdTPosEnd)
      else
        tagHandled (processElseCmd st parms cmdTPosBegin cmdTPosEnd)
    else if cmd = "/?".data then
      tagHandled (processEndIfCmd st parms cmdTPosBegin cmdTPosEnd)
    else .ok (false, st)

/-- Source `parseTemplateCommands`: the main scan loop.  One unit of fuel
is spent per loop iteration. -/
def parseTemplateCommands : Nat → PState → Nat → Except PErr PState
  | 0, _, _ => .error .fuelOut
  | fuel + 1, st, p =>
    let text := st.templateText
    let p0long : Int := jsIndexOf text cmdStartStr (p : Int)
    match
      (if st.pParms.shortFormEnabled ∧ p0long ≠ (p : Int) then
        if p0long = -1 then (jsIndexOf text cmdStartStrShort (p : Int), true)
        else
          let p2 := jsIndexOf (jsSubstring text (p : Int) p0long) cmdStartStrShort 0
          if p2 ≠ -1 then ((p : Int) + p2, true) else (p0long, false)
      else (p0long, false) : Int × Bool)
    with
    | (p0, shortForm) =>
    if p0 = -1 then .ok st
    else
      match conditionalExclude st p (p0.toNat) with
      | (_, st) =>
      if shortForm then
        let pEnd : Int := jsIndexOf st.templateText cmdEndStrShort (p0 + 2)
        if pEnd = -1 then
          let pNew := p0.toNat + 2
          match conditionalExclude st p0.toNat pNew with
          | (_, st) => parseTemplateCommands fuel st pNew
        else
          let pNew := pEnd.toNat + 1
          let cmdLine := jsSubstring st.templateText (p0 + 2) ((pNew : Int) - 1)
          match processShortFormTemplateCommand st cmdLine p0.toNat pNew with
          | .error e => .error e
          | .ok (handled, st) =>
            match (if handled then (true, st) else conditionalExclude st p0.toNat pNew) with
            | (_, st) => parseTemplateCommands fuel st pNew
      else
        let pEnd : Int := jsIndexOf st.templateText cmdEndStr (p0 + 4)
        if pEnd = -1 then
          .error (.stx ("Invalid HTML comment in template at offset " ++ toString p0 ++ "."))
        else
          let pNew := pEnd.toNat + 3
          let cmdLine := jsSubstring st.templateText (p0 + 4) ((pNew : Int) - 3)
          let st := { st with resumeCmdParsingFromStart := false }
          match processTemplateCommand st cmdLine p0.toNat pNew with
          | .error e => .error e
          | .ok (handled, st) =>
            match (if handled then (true, st) else conditionalExclude st p0.toNat pNew) with
            | (_, st) =>
              let pNext := if st.resumeCmdParsingFromStart then p0.toNat else pNew
              parseTemplateCommands fuel st pNext

/-- Source `registerVariable` and `registerVariableReference` combined as
in the source call chain. -/
def registerVariableReference (st : PState) (varName : String) (tPosBegin tPosEnd : Nat) :
    PState :=
  let varNoI := pLookupVariableName st varName
  let (varNo, st) :=
    if varNoI = -1 then (st.varTab.length, { st with varTab := st.varTab ++ [varName] })
    else (varNoI.toNat, st)
  { st with varRefTab := st.varRefTab
      ++ [{ varNo := varNo, tPosBegin := tPosBegin, tPosEnd := tPosEnd }] }

/-- Source `parseTemplateVariables`: scan for `${name}` placeholders. -/
def parseTemplateVariables : Nat → PState → Nat → Except PErr PState
  | 0, _, _ => .error .fuelOut
  | fuel + 1, st, p =>
    let pv : Int := jsIndexOf st.templateText varStartStr (p : Int)
    if pv = -1 then .ok st
    else
      let p0 := pv.toNat
      let pe : Int := jsIndexOf st.templateText closeBraceStr pv
      if pe = -1 then
        .error (.stx ("Invalid variable reference in template at offset " ++ toString p0 ++ "."))
      else
        let pNew := pe.toNat + 1
        let varName := listToString (jsTrim (jsSubstring st.templateText
                          ((p0 : Int) + 2) ((pNew : Int) - 1)))
        if varName = "" then
          .error (.stx ("Empty variable name in template at offset " ++ toString p0 ++ "."))
        else
          parseTemplateVariables fuel (registerVariableReference st varName p0 pNew) pNew

/-- Source `associateVariablesWithBlocks`: the merged forward pass over the
block table and the variable-reference table.  The two `assertFail` exits
embed the source's `assert` and the `TypeError` an access to
`blockTab[-1]` would raise. -/
def associateVariablesWithBlocks : Nat → PState → Nat → Int → Nat → Except PErr PState
  | 0, _, _, _, _ => .error .fuelOut
  | fuel + 1, st, varRefNo, activeBlockNo, nextBlockNo =>
    if varRefNo ≥ st.varRefTab.length then .ok st
    else if activeBlockNo < 0 then .error .assertFail
    else
      let vrtr := st.varRefTab.getD varRefNo dfltVarRef
      let varRefTPos := vrtr.tPosBegin
      let varNo := vrtr.varNo
      let act := st.blockTab.getD activeBlockNo.toNat {}
      if varRefTPos ≥ act.tPosEnd then
        associateVariablesWithBlocks fuel st varRefNo act.parentBlockNo nextBlockNo
      else if nextBlockNo < st.blockTab.length
              ∧ varRefTPos ≥ (st.blockTab.getD nextBlockNo {}).tPosBegin then
        associateVariablesWithBlocks fuel st varRefNo (nextBlockNo : Int) (nextBlockNo + 1)
      else if varRefTPos ≥ act.tPosBegin then
        let blockVarNo := act.blockVarNoToVarNoMap.length
        let st := updBlock st activeBlockNo.toNat (fun b =>
          { b with blockVarNoToVarNoMap := b.blockVarNoToVarNoMap ++ [varNo],
                   firstVarRefNo := if b.firstVarRefNo = -1 then (varRefNo : Int)
                                    else b.firstVarRefNo })
        let newRef := { vrtr with blockNo := activeBlockNo.toNat, blockVarNo := blockVarNo }
        let st := { st with varRefTab := st.varRefTab.set varRefNo newRef }
        associateVariablesWithBlocks fuel st (varRefNo + 1) activeBlockNo nextBlockNo
      else .error .assertFail

/-- Source `beginMainBlock`. -/
def beginMainBlock (st : PState) : PState :=
  let (blockNo, st) := registerBlock st none
  let st := updBlock st blockNo (fun b => { b with tPosBegin := 0, tPosContentsBegin := 0 })
  { st with openBlocksTab := st.openBlocksTab.set st.currentNestingLevel blockNo,
            currentNestingLevel := st.currentNestingLevel + 1 }

/-- Source `endMainBlock`. -/
def endMainBlock (st : PState) : PState :=
  let len := st.templateText.length
  let st := updBlock st 0 (fun b =>
    { b with tPosContentsEnd := len, tPosEnd := len, definitionIsOpen := false })
  { st with currentNestingLevel := st.currentNestingLevel - 1 }

/-- Source `parseTemplate`/`Parser.main`/`parseTemplate` private method:
load the main text, run the command scan, the checks, the variable scan
and the association pass, and package the parsed template.  `fuel` bounds
the iteration counts of the three scan loops. -/
def parseTemplate (pParms : ParserParms) (fuel : Nat) : Except PErr ParsedTemplate :=
  match pParms.loadTemplateFile pParms.mainTemplateName with
  | none => Except.error (PErr.load pParms.mainTemplateName)
  | some text =>
    let st : PState :=
      { pParms := pParms
        templateText := text
        varTab := []
        varRefTab := []
        blockTab := []
        currentNestingLevel := 0
        openBlocksTab := List.replicate (maxNestingLevel + 1) 0
        condLevel := -1
        condEnabled := List.replicate maxCondLevels false
        condPassed := List.replicate maxCondLevels false
        resumeCmdParsingFromStart := false }
    let st := beginMainBlock st
    match parseTemplateCommands fuel st 0 with
    | .error e => .error e
    | .ok st =>
      let st := endMainBlock st
      match checkBlockDefinitionsComplete st with
      | .error e => .error e
      | .ok st =>
        if st.condLevel ≠ -1 then
          Except.error (PErr.stx "$if without matching $endIf.")
        else
          match parseTemplateVariables fuel st 0 with
          | .error e => .error e
          | .ok st =>
            match associateVariablesWithBlocks fuel st 0 0 1 with
            | .error e => .error e
            | .ok st =>
              Except.ok { templateText := st.templateText, varTab := st.varTab,
                          varRefTab := st.varRefTab, blockTab := st.blockTab }

/-! ### Output engine (MiniTemplator.ts) -/

/-- The two render-time caller-contract errors
(`VariableNotDefinedError`, `BlockNotDefinedError`). -/
inductive MtErr where
  | variableNotDefined (name : String)
  | blockNotDefined (name : String)
deriving DecidableEq, Repr

/-- Source `BlockDynTabRec`. -/
structure BlockDynRec where
  instances : Nat
  firstBlockInstNo : Int
  lastBlockInstNo : Int
  currBlockInstNo : Int
deriving DecidableEq, Repr

/-- Source `BlockInstTabRec`.  When a block has no local variables the
source leaves `blockVarTab` unset and never reads it; the empty list
embeds that. -/
structure BlockInstRec where
  blockNo : Nat
  instanceLevel : Nat
  parentInstLevel : Int
  nextBlockInstNo : Int
  blockVarTab : List String
deriving DecidableEq, Repr

def dfltDyn : BlockDynRec :=
  { instances := 0, firstBlockInstNo := -1, lastBlockInstNo := -1, currBlockInstNo := -1 }

def dfltInst : BlockInstRec :=
  { blockNo := 0, instanceLevel := 0, parentInstLevel := -1,
    nextBlockInstNo := -1, blockVarTab := [] }

/-- The mutable per-session state of class `MiniTemplator` together with
its (immutable) parsed template. -/
structure Session where
  template : ParsedTemplate
  varValuesTab : List String
  blockDynTab : List BlockDynRec
  blockInstTab : List BlockInstRec
deriving DecidableEq, Repr

/-- Source `reset` (also the state established by the constructor):
variable values cleared to `""`, dynamic records zeroed, instance table
emptied.  `currBlockInstNo` is unset in the source until output generation
assigns it; `-1` stands for that. -/
def Session.reset (s : Session) : Session :=
  { s with varValuesTab := List.replicate s.template.varTab.length ""
         , blockDynTab := List.replicate s.template.blockTab.length dfltDyn
         , blockInstTab := [] }

/-- `new MiniTemplator(template)`. -/
def freshSession (t : ParsedTemplate) : Session :=
  Session.reset { template := t, varValuesTab := [], blockDynTab := [], blockInstTab := [] }

/-- Source `setVariable`.  The error is thrown before any mutation, so the
session comes back unchanged next to it. -/
def Session.setVariable (s : Session) (varName : String) (varValue : JSValue) :
    Session × Option MtErr :=
  let varNo := s.template.lookupVariableName varName
  if varNo = -1 then (s, some (.variableNotDefined varName))
  else ({ s with varValuesTab :=
            s.varValuesTab.set varNo.toNat (formatVariableValue varValue) }, none)

/-- Source `setVariableOpt`. -/
def Session.setVariableOpt (s : Session) (varName : String) (varValue : JSValue) : Session :=
  let varNo := s.template.lookupVariableName varName
  if varNo = -1 then s
  else { s with varValuesTab :=
          s.varValuesTab.set varNo.toNat (formatVariableValue varValue) }

/-- Source `setVariableEsc`. -/
def Session.setVariableEsc (s : Session) (varName : String) (varValue : JSValue) :
    Session × Option MtErr :=
  s.setVariable varName (.str (escapeHtml varValue))

/-- Source `setVariableOptEsc`. -/
def Session.setVariableOptEsc (s : Session) (varName : String) (varValue : JSValue) : Session :=
  s.setVariableOpt varName (.str (escapeHtml varValue))

/-- Source `variableExists`. -/
def Session.variableExists (s : Session) (varName : String) : Bool :=
  s.template.lookupVariableName varName ≠ -1

/-- Source `blockExists`. -/
def Session.blockExists (s : Session) (blockName : String) : Bool :=
  s.template.lookupBlockName blockName ≠ -1

/-- Source `addBlockByNo`: append one instance of block `blockNo`, link it
to the end of the block's instance chain, record the block's and the
parent's running instance counts, and snapshot the block-local variables.
The dynamic record is updated (in place, in the source) before the
parent's instance count is read, exactly as the statement order of the
source prescribes. -/
def Session.addBlockByNo (s : Session) (blockNo : Nat) : Session :=
  let btr := s.template.blockTab.getD blockNo {}
  let bdtr := s.blockDynTab.getD blockNo dfltDyn
  let blockInstNo := s.blockInstTab.length
  let instTab :=
    if bdtr.lastBlockInstNo ≠ -1 then
      let prev := s.blockInstTab.getD bdtr.lastBlockInstNo.toNat dfltInst
      s.blockInstTab.set bdtr.lastBlockInstNo.toNat
        { prev with nextBlockInstNo := (blockInstNo : Int) }
    else s.blockInstTab
  let bdtr1 : BlockDynRec :=
    { bdtr with
      firstBlockInstNo := if bdtr.firstBlockInstNo = -1 then (blockInstNo : Int)
                          else bdtr.firstBlockInstNo
      lastBlockInstNo := (blockInstNo : Int)
      instances := bdtr.instances + 1 }
  let dynTab := s.blockDynTab.set blockNo bdtr1
  let parentInstLevel : Int :=
    if btr.parentBlockNo = -1 then -1
    else ((dynTab.getD btr.parentBlockNo.toNat dfltDyn).instances : Int)
  let bitr : BlockInstRec :=
    { blockNo := blockNo
      instanceLevel := bdtr.instances
      parentInstLevel := parentInstLevel
      nextBlockInstNo := -1
      blockVarTab := btr.blockVarNoToVarNoMap.map (fun varNo => s.varValuesTab.getD varNo "") }
  { s with blockDynTab := dynTab, blockInstTab := instTab ++ [bitr] }

/-- Source `addBlocksByNo`: walk the same-name chain, adding one instance
per visited block.  In every table the parser produces the chain indices
strictly decrease, so the fuel `blockTab.length + 1` used by
`addBlock`/`addBlockOpt` always完 suffices; fuel exhaustion (unreachable for
parser tables) stops the walk. -/
def Session.addBlocksByNo : Nat → Session → Int → Session
  | 0, s, _ => s
  | fuel + 1, s, blockNo =>
    if blockNo = -1 then s
    else
      let s2 := s.addBlockByNo blockNo.toNat
      Session.addBlocksByNo fuel s2
        ((s2.template.blockTab.getD blockNo.toNat {}).nextWithSameName)

/-- Source `addBlock`. -/
def Session.addBlock (s : Session) (blockName : String) : Session × Option MtErr :=
  let blockNo := s.template.lookupBlockName blockName
  if blockNo = -1 then (s, some (.blockNotDefined blockName))
  else (Session.addBlocksByNo (s.template.blockTab.length + 1) s blockNo, none)

/-- Source `addBlockOpt` (never fails; an unknown name walks the empty chain). -/
def Session.addBlockOpt (s : Session) (blockName : String) : Session :=
  Session.addBlocksByNo (s.template.blockTab.length + 1) s
    (s.template.lookupBlockName blockName)

/-! ### Output generation -/

/-- Render failures: `assertErr` embeds a thrown `assert`; `fuelErr` is the
embedding's fuel artifact and corresponds to no behaviour of the source. -/
inductive RErr where
  | assertErr
  | fuelErr
deriving DecidableEq, Repr

/-- Source `ChunkKind`. -/
inductive ChunkKind where
  | endOfBlock
  | variable
  | subBlock
deriving DecidableEq, Repr

/-- The fields of `MiniTemplator` read or written while rendering
(`writeBlockInstances` and below).  The current variable values are not
among them: rendering reads only the per-instance snapshots. -/
structure GenState where
  template : ParsedTemplate
  blockDynTab : List BlockDynRec
  blockInstTab : List BlockInstRec
  out : List String
deriving DecidableEq, Repr

mutual

/-- Source `writeBlockInstances`: from the block's chain cursor, emit the
instances recorded under `parentInstLevel`, stopping (without passing) at
the first instance recorded under a later parent level.  `assertErr` is
the source's `assert(bitr.parentInstLevel >= parentInstLevel)`. -/
def writeBlockInstances (fuel : Nat) (g : GenState) (blockNo : Nat) (parentInstLevel : Int) :
    Except RErr GenState :=
  match fuel with
  | 0 => .error .fuelErr
  | fuel + 1 =>
    let bdtr := g.blockDynTab.getD blockNo dfltDyn
    let blockInstNo := bdtr.currBlockInstNo
    if blockInstNo = -1 then .ok g
    else
      let bitr := g.blockInstTab.getD blockInstNo.toNat dfltInst
      if bitr.parentInstLevel < parentInstLevel then .error .assertErr
      else if bitr.parentInstLevel > parentInstLevel then .ok g
      else
        match writeBlockInstance fuel g blockInstNo.toNat with
        | .error e => .error e
        | .ok g2 =>
          let bdtr2 := g2.blockDynTab.getD blockNo dfltDyn
          let bdtr3 := { bdtr2 with currBlockInstNo := bitr.nextBlockInstNo }
          let g3 := { g2 with blockDynTab := g2.blockDynTab.set blockNo bdtr3 }
          writeBlockInstances fuel g3 blockNo parentInstLevel

/-- Source `writeBlockInstance` head: set up the chunk scan of the
instance's block contents. -/
def writeBlockInstance (fuel : Nat) (g : GenState) (blockInstNo : Nat) :
    Except RErr GenState :=
  match fuel with
  | 0 => .error .fuelErr
  | fuel + 1 =>
    let bitr := g.blockInstTab.getD blockInstNo dfltInst
    let btr := g.template.blockTab.getD bitr.blockNo {}
    writeChunks fuel g blockInstNo btr.tPosContentsBegin (bitr.blockNo + 1) btr.firstVarRefNo

/-- The chunk loop of source `writeBlockInstance`: locate the next variable
reference or subblock of the instance's block, emit the literal text before
it, then the snapshotted variable value (empty values contribute nothing)
or the subblock's instances.  The two `continue` branches of the source
re-enter the loop with the skipped reference resp. subblock consumed; the
two `assertErr` exits embed the source's membership asserts. -/
def writeChunks (fuel : Nat) (g : GenState) (blockInstNo : Nat) (tPos : Nat)
    (subBlockNo : Nat) (varRefNo : Int) : Except RErr GenState :=
  match fuel with
  | 0 => .error .fuelErr
  | fuel + 1 =>
    let varRefTab := g.template.varRefTab
    let blockTab := g.template.blockTab
    let bitr := g.blockInstTab.getD blockInstNo dfltInst
    let blockNo := bitr.blockNo
    let btr := blockTab.getD blockNo {}
    if varRefNo ≠ -1 ∧ varRefNo < (varRefTab.length : Int)
        ∧ (varRefTab.getD varRefNo.toNat dfltVarRef).tPosBegin < tPos then
      writeChunks fuel g blockInstNo tPos subBlockNo (varRefNo + 1)
    else if subBlockNo < blockTab.length ∧ (blockTab.getD subBlockNo {}).tPosBegin < tPos then
      writeChunks fuel g blockInstNo tPos (subBlockNo + 1) varRefNo
    else
      let tPos2a := btr.tPosContentsEnd
      match
        (match
          (if varRefNo ≠ -1 ∧ varRefNo < (varRefTab.length : Int) then
            let vrtr := varRefTab.getD varRefNo.toNat dfltVarRef
            if vrtr.tPosBegin < tPos2a then (vrtr.tPosBegin, ChunkKind.variable)
            else (tPos2a, ChunkKind.endOfBlock)
          else (tPos2a, ChunkKind.endOfBlock) : Nat × ChunkKind)
        with
        | (tPos2v, kindv) =>
          (if subBlockNo < blockTab.length then
            let subBtr := blockTab.getD subBlockNo {}
            if subBtr.tPosBegin < tPos2v then (subBtr.tPosBegin, ChunkKind.subBlock)
            else (tPos2v, kindv)
          else (tPos2v, kindv) : Nat × ChunkKind))
      with
      | (tPos2, kind) =>
      let g := if tPos2 > tPos then
                 { g with out := g.out ++ [listToString
                     (jsSubstring g.template.templateText (tPos : Int) (tPos2 : Int))] }
               else g
      match kind with
      | .endOfBlock => .ok g
      | .variable =>
        let vrtr := varRefTab.getD varRefNo.toNat dfltVarRef
        if vrtr.blockNo ≠ blockNo then .error .assertErr
        else
          let varValue := bitr.blockVarTab.getD vrtr.blockVarNo ""
          let g := if varValue ≠ "" then { g with out := g.out ++ [varValue] } else g
          writeChunks fuel g blockInstNo vrtr.tPosEnd subBlockNo (varRefNo + 1)
      | .subBlock =>
        let subBtr := blockTab.getD subBlockNo {}
        if subBtr.parentBlockNo ≠ (blockNo : Int) then .error .assertErr
        else
          match writeBlockInstances fuel g subBlockNo (bitr.instanceLevel : Int) with
          | .error e => .error e
          | .ok g2 => writeChunks fuel g2 blockInstNo subBtr.tPosEnd (subBlockNo + 1) varRefNo

end

/-- Source `generateOutputArray`: add the main block automatically when it
has no instances, reset every chain cursor to the chain head, render from
the root, and return the output fragments with the updated session. -/
def Session.generateOutputArray (fuel : Nat) (s : Session) :
    Except RErr (List String × Session) :=
  let s := if (s.blockDynTab.getD 0 dfltDyn).instances = 0 then s.addBlockByNo 0 else s
  let dynTab := s.blockDynTab.map (fun b => { b with currBlockInstNo := b.firstBlockInstNo })
  let g : GenState := { template := s.template, blockDynTab := dynTab,
                        blockInstTab := s.blockInstTab, out := [] }
  match writeBlockInstances fuel g 0 (-1) with
  | .error e => .error e
  | .ok g2 =>
    .ok (g2.out, { s with blockDynTab := g2.blockDynTab, blockInstTab := g2.blockInstTab })

/-- Source `generateOutputString`. -/
def Session.generateOutputString (fuel : Nat) (s : Session) :
    Except RErr (String × Session) :=
  match s.generateOutputArray fuel with
  | .error e => .error e
  | .ok r => .ok (String.join r.1, r.2)

/-! ### Cache (MiniTemplatorCache.ts) -/

/-- JavaScript `Array.prototype.sort()` default order (strings compared by
code units), via insertion sort.  The arrays sorted by the source hold
distinct map keys, for which every correct sort agrees. -/
def insertSorted (x : String) : List String → List String
  | [] => [x]
  | y :: t => if x < y then x :: y :: t else y :: insertSorted x t

def sortStrings : List String → List String
  | [] => []
  | x :: t => insertSorted x (sortStrings t)

/-- Source `encodeConditionVarValue`.  The `default` branch throws a plain
`Error`, embedded as the `Except` error. -/
def encodeConditionVarValue : JSValue → Except String String
  | .str s => .ok s
  | .num n => .ok (toString n)
  | _ => .error "Unsupported data type of a condition variable value."

/-- Source `genConditionVarsCacheKey`.  Note that the source pushes
`varValue` — not `varName` — in both emitting branches (`out.push(varValue)`
and `out.push(varValue + "=" + encodedValue)`), although its own comments
say the variable name is what is stored; the embedding mirrors the code.
`JSValue` coercion to string stands for the JavaScript stringification
`Array.prototype.join` resp. `+` perform. -/
def genCacheKeyGo (conditionVars : List (String × JSValue)) :
    List String → List String → Except String (List String)
  | [], acc => .ok acc
  | varName :: rest, acc =>
    match lookupAssoc conditionVars varName with
    | none => genCacheKeyGo conditionVars rest acc
    | some varValue =>
      if varValue = .bool false ∨ varValue = .undefined ∨ varValue = .null
          ∨ varValue = .str "" then
        genCacheKeyGo conditionVars rest acc
      else if varValue = .bool true then
        genCacheKeyGo conditionVars rest (acc ++ [jsValueToString varValue])
      else
        match encodeConditionVarValue varValue with
        | .error e => .error e
        | .ok encodedValue =>
          genCacheKeyGo conditionVars rest
            (acc ++ [jsValueToString varValue ++ "=" ++ encodedValue])

def genConditionVarsCacheKey (conditionVars : List (String × JSValue)) :
    Except String String :=
  match genCacheKeyGo conditionVars (sortStrings (conditionVars.map Prod.fst)) [] with
  | .error e => .error e
  | .ok out => .ok (String.intercalate "\x1E" out)

/-- The cache-key computation of `MiniTemplatorCache.get`: template name,
and when condition variables are supplied, `"|"` plus their encoding. -/
def cacheKeyFor (templateName : String)
    (conditionVars : Option (List (String × JSValue))) : Except String String :=
  match conditionVars with
  | some cv =>
    match genConditionVarsCacheKey cv with
    | .error e => .error e
    | .ok k => .ok (templateName ++ "|" ++ k)
  | none => .ok templateName

/-! ### Concrete fixtures used by the claims -/

/-- Parser parameters for a main template with the given text, no other
loadable templates, long-form commands only. -/
def oneFileParms (text : String) (vars : List (String × JSValue)) : ParserParms :=
  { mainTemplateName := "main", conditionVars := vars, shortFormEnabled := false,
    loadTemplateFile := fun n => if n = "main" then some text.data else none }

def emptyTpl : ParsedTemplate :=
  { templateText := [], varTab := [], varRefTab := [], blockTab := [] }

/-- The parsed template of a parameter set (or the empty template if the
parse fails; each use below is accompanied by a theorem that the parse in
fact succeeds with this very result). -/
def tplOf (p : ParserParms) (fuel : Nat) : ParsedTemplate :=
  match parseTemplate p fuel with
  | .ok t => t
  | .error _ => emptyTpl

/-- Template with one uniquely named block (claims C5, C6). -/
def rowText : String := "x<!-- $beginBlock row -->R<!-- $endBlock row -->y"

def rowParms : ParserParms := oneFileParms rowText []

def rowTpl : ParsedTemplate := tplOf rowParms 50

/-- Template with two block definitions sharing the name `b` (claim C1). -/
def twoBlocksText : String :=
  "<!-- $beginBlock b -->1<!-- $endBlock b --><!-- $beginBlock b -->2<!-- $endBlock b -->"

def twoBlocksParms : ParserParms := oneFileParms twoBlocksText []

def twoBlocksTpl : ParsedTemplate := tplOf twoBlocksParms 50

/-- The conditional chain of claim C2, compiled with a=false, b=true, c=true. -/
def condChainText : String :=
  "<!-- $if a -->A<!-- $elseIf b -->B<!-- $elseIf c -->C<!-- $else -->D<!-- $endIf -->"

def condChainParms : ParserParms :=
  oneFileParms condChainText [("a", .bool false), ("b", .bool true), ("c", .bool true)]

def condChainTpl : ParsedTemplate := tplOf condChainParms 50

/-- Template whose variable placeholder spans a `$beginBlock` command
(claim C9): it parses, yet rendering trips the renderer's subblock assert. -/
def assertBreakText : String :=
  "$\x7bv<!-- $beginBlock c -->\x7dA<!-- $beginBlock g -->x<!-- $endBlock g --><!-- $endBlock c -->"

def assertBreakParms : ParserParms := oneFileParms assertBreakText []

def assertBreakTpl : ParsedTemplate := tplOf assertBreakParms 50

/-- Template whose only variable placeholder lies in a branch disabled at
compile time (claim C10). -/
def dummyVarText : String := "<!-- $if a -->$\x7bx\x7d<!-- $endIf -->"

def dummyVarParms : ParserParms := oneFileParms dummyVarText [("a", .bool false)]

def dummyVarTpl : ParsedTemplate := tplOf dummyVarParms 50

/-- Main template whose single command includes an oversized subtemplate
(claim C4). -/
def inclMainText : String := "<!-- $include sub -->"

def bigSubText : List Char := List.replicate 1000000 'a'

def inclOversizeParms : ParserParms :=
  { mainTemplateName := "main", conditionVars := [], shortFormEnabled := false,
    loadTemplateFile := fun n =>
      if n = "main" then some inclMainText.data
      else if n = "sub" then some bigSubText
      else none }

/-- Two `$if` commands over different condition variables (claim C8). -/
def twoIfText : String := "<!-- $if a -->X<!-- $endIf --><!-- $if b -->Y<!-- $endIf -->"

def condVarsAB1 : List (String × JSValue) := [("a", .bool true), ("b", .bool false)]

def condVarsAB2 : List (String × JSValue) := [("a", .bool false), ("b", .bool true)]

def twoIfTplA : ParsedTemplate := tplOf (oneFileParms twoIfText condVarsAB1) 50

def twoIfTplB : ParsedTemplate := tplOf (oneFileParms twoIfText condVarsAB2) 50

/- The fixture templates unfold to full parser runs; the `Meta`-level
definitional-equality checker must never evaluate those (kernel reduction
via `decide!` handles every concrete fact about them). -/
attribute [irreducible] rowTpl twoBlocksTpl condChainTpl assertBreakTpl dummyVarTpl
attribute [irreducible] twoIfTplA twoIfTplB

/-- The rendered text of a session (the output component of
`generateOutputString`). -/
def renderOut (fuel : Nat) (s : Session) : Except RErr String :=
  match s.generateOutputString fuel with
  | .error e => .error e
  | .ok r => .ok r.1

/-- The mutating public-API calls of `MiniTemplator` (used to quantify
over whole sessions). -/
inductive Call where
  | setVar (name : String) (v : JSValue)
  | setVarOpt (name : String) (v : JSValue)
  | setVarEsc (name : String) (v : JSValue)
  | setVarOptEsc (name : String) (v : JSValue)
  | addBlk (name : String)
  | addBlkOpt (name : String)
  | reset
  | generate

/-- Apply one public-API call.  Throwing calls leave the session as they
found it (the source throws before mutating); `generate` runs output
generation with ample fuel and keeps the updated session. -/
def applyCall (s : Session) : Call → Session
  | .setVar n v => (s.setVariable n v).1
  | .setVarOpt n v => s.setVariableOpt n v
  | .setVarEsc n v => (s.setVariableEsc n v).1
  | .setVarOptEsc n v => s.setVariableOptEsc n v
  | .addBlk n => (s.addBlock n).1
  | .addBlkOpt n => s.addBlockOpt n
  | .reset => s.reset
  | .generate =>
    match s.generateOutputArray 1000 with
    | .ok r => r.2
    | .error _ => s

def applySeq (s : Session) : List Call → Session
  | [] => s
  | c :: t => applySeq (applyCall s c) t

/-- The session state reached by the one `generateOutput` call possible on
the conditional-chain template (defined for the C2 session invariant). -/
def condChainSes2 : Session := applyCall (freshSession condChainTpl) .generate

attribute [irreducible] condChainSes2

/-- The parse result of a template whose text contains no command start
and no variable-placeholder start: the text itself under the implicit main
block, no variables, no references. -/
def mainOnlyTpl (text : String) : ParsedTemplate :=
  { templateText := text.data
    varTab := []
    varRefTab := []
    blockTab := [{ blockName := none, nextWithSameName := -1, tPosBegin := 0,
                   tPosContentsBegin := 0, tPosContentsEnd := text.data.length,
                   tPosEnd := text.data.length, nestingLevel := 0, parentBlockNo := -1,
                   definitionIsOpen := false, blockVarNoToVarNoMap := [],
                   firstVarRefNo := -1, dummy := false }] }

/-- A parser state used to witness the conditional-branch transition laws:
inside one open conditional level (level 0), enclosing context enabled. -/
def c2WitnessSt : PState :=
  { pParms := condChainParms
    templateText := condChainText.data
    varTab := []
    varRefTab := []
    blockTab := []
    currentNestingLevel := 0
    openBlocksTab := List.replicate 31 0
    condLevel := 0
    condEnabled := List.replicate 30 true
    condPassed := List.replicate 30 false
    resumeCmdParsingFromStart := false }


/-- The block numbers visited by `addBlocksByNo` starting at `i`: the
registered same-name chain of the block table (head = most recently
registered definition). -/
def chainBlockNos (tab : List BlockRec) : Nat → Int → List Nat
  | 0, _ => []
  | fuel+1, i =>
    if i = -1 then []
    else i.toNat :: chainBlockNos tab fuel (tab.getD i.toNat {}).nextWithSameName

/-- The indices of the block definitions named `n`, in definition order
(order of appearance in the template text, which is registration order). -/
def sameNameIdxs (tab : List BlockRec) (n : String) : List Nat :=
  (List.range tab.length).filter (fun i => (tab.getD i {}).blockName = some n)


/-- `addBlock(n)` called `N` times in sequence (the C6 scenario). -/
def iterAddBlock (s : Session) (n : String) : Nat → Session
  | 0 => s
  | k+1 => ((iterAddBlock s n k).addBlock n).1

/-- The instance record created by the `i`-th `addBlock("row")` call (of
`N`): instance `i` of block 1, linked to instance `i+1` (the next
creation), the last one ending the chain. -/
def rowInst (N i : Nat) : BlockInstRec :=
  { blockNo := 1, instanceLevel := i, parentInstLevel := 0,
    nextBlockInstNo := if i = N - 1 then -1 else ((i + 1 : Nat) : Int),
    blockVarTab := [] }

/-- The instance table after `N` `addBlock("row")` calls. -/
def rowInsts (N : Nat) : List BlockInstRec := (List.range N).map (rowInst N)

/-- The automatically added main-block instance of the row template. -/
def mainInstRec : BlockInstRec :=
  { blockNo := 0, instanceLevel := 0, parentInstLevel := -1,
    nextBlockInstNo := -1, blockVarTab := [] }

/-! ### Theorems -/

/-- C9: the claim says the internal assertions never fail and
`generateOutputString` never throws, for every compiled template and every
sequence of public-API calls.  The code violates this: the template
`${v<!-- $beginBlock c -->}A<!-- $beginBlock g -->x<!-- $endBlock g --><!-- $endBlock c -->`
parses successfully (the variable placeholder spans the `$beginBlock c`
command, so the reference `[0,26)` is assigned to the main block while
block `c` starts inside it), and rendering a fresh session with no API
calls at all trips `assert(subBtr.parentBlockNo == blockNo)`: emitting the
main block consumes the reference, advances past block `c`'s start, skips
`c`, and then meets grandchild `g` whose parent is `c`, not the main
block.  The assertion failure is exactly the source's thrown
`Error("Assertion failed.")`. -/
theorem c9_render_assert_fails :
    parseTemplate assertBreakParms 50 = .ok assertBreakTpl
  ∧ (assertBreakTpl.blockTab.getD 2 {}).parentBlockNo = 1
  ∧ renderOut 50 (freshSession assertBreakTpl) = .error .assertErr := by
  refine ⟨by decide!, by decide!, by decide!⟩

/-- C10: a variable placeholder occurring only inside a disabled
conditional branch is still registered: after parsing
`<!-- $if a -->${x}<!-- $endIf -->` with `a = false`, the variable `x`
exists, `setVariable "x"` succeeds, `x`'s one reference belongs to the
dummy block covering the excluded range, and the rendered output is empty
(the set value never appears). -/
theorem c10_dummy_branch_variable_registered :
    parseTemplate dummyVarParms 50 = .ok dummyVarTpl
  ∧ dummyVarTpl.varTab = ["x"]
  ∧ (freshSession dummyVarTpl).variableExists "x" = true
  ∧ ((freshSession dummyVarTpl).setVariable "x" (.str "V")).2 = none
  ∧ (dummyVarTpl.varRefTab.getD 0 dfltVarRef).blockNo = 1
  ∧ (dummyVarTpl.blockTab.getD 1 {}).dummy = true
  ∧ renderOut 30 (((freshSession dummyVarTpl).setVariable "x" (.str "V")).1) = .ok "" := by
  refine ⟨by decide!, by decide!, by decide!, by decide!, by decide!, by decide!, by decide!⟩

/-- C8: the claim (with the source's own comments) requires the cache key
to encode the condition-variable names, so that `{a:true}` and `{b:true}`
get different keys and equal keys imply identical compiled artifacts.  The
code pushes the variable's value instead of its name
(`out.push(varValue)`), so `{a:true}` and `{b:true}` both produce the key
`"true"`; and the sets `{a:true,b:false}` / `{a:false,b:true}` also share
the key `"true"` while compiling the same template text to different
artifacts — rendering `"X"` versus `"Y"`. -/
theorem c8_cache_key_drops_names :
    genConditionVarsCacheKey [("a", .bool true)] = .ok "true"
  ∧ genConditionVarsCacheKey [("b", .bool true)] = .ok "true"
  ∧ cacheKeyFor "t.html" (some [("a", .bool true)])
      = cacheKeyFor "t.html" (some [("b", .bool true)])
  ∧ genConditionVarsCacheKey condVarsAB1 = .ok "true"
  ∧ genConditionVarsCacheKey condVarsAB2 = .ok "true"
  ∧ parseTemplate (oneFileParms twoIfText condVarsAB1) 50 = .ok twoIfTplA
  ∧ parseTemplate (oneFileParms twoIfText condVarsAB2) 50 = .ok twoIfTplB
  ∧ renderOut 30 (freshSession twoIfTplA) = .ok "X"
  ∧ renderOut 30 (freshSession twoIfTplB) = .ok "Y"
  ∧ twoIfTplA ≠ twoIfTplB := by
  refine ⟨by decide!, by decide!, by decide!, by decide!, by decide!, by decide!, by decide!,
    by decide!, by decide!, by decide!⟩

/-- List helper: `getD` after an in-range `set` at the same index. -/
theorem getD_set_self {α : Type} (l : List α) (i : Nat) (a d : α) (h : i < l.length) :
    (l.set i a).getD i d = a := by
  simp [List.getD, List.getElem?_set_self, h]

/-- List helper: `getD` of an appended singleton at the old length. -/
theorem getD_append_len {α : Type} (l : List α) (x d : α) :
    (l ++ [x]).getD l.length d = x := by
  induction l with
  | nil => rfl
  | cons y t ih => simp only [List.cons_append, List.length_cons, List.getD]; simp [ih]

/-- C5: a `setVariable` with a name not in the template throws
`VariableNotDefinedError`, an `addBlock` with an undefined block name
throws `BlockNotDefinedError`, `setVariableOpt` and `addBlockOpt` with
unknown names are no-ops, and in all four cases the session — variable
values, dynamic records and instance list alike — is exactly the one the
call started from. -/
theorem c5_unknown_names_leave_state_unchanged (s : Session) (name : String) (v : JSValue)
    (hv : s.template.lookupVariableName name = -1)
    (hb : s.template.lookupBlockName name = -1) :
    s.setVariable name v = (s, some (.variableNotDefined name))
  ∧ s.setVariableOpt name v = s
  ∧ s.addBlock name = (s, some (.blockNotDefined name))
  ∧ s.addBlockOpt name = s := by
  refine ⟨?_, ?_, ?_, ?_⟩
  · simp [Session.setVariable, hv]
  · simp [Session.setVariableOpt, hv]
  · simp [Session.addBlock, hb]
  · simp [Session.addBlockOpt, hb, Session.addBlocksByNo]

/-- C5 witness: the row template knows neither a variable nor a block
called `zzz`, and all four calls behave as stated on a fresh session. -/
theorem c5_unknown_names_leave_state_unchanged_witness :
    (freshSession rowTpl).setVariable "zzz" (.str "q")
        = (freshSession rowTpl, some (.variableNotDefined "zzz"))
  ∧ (freshSession rowTpl).setVariableOpt "zzz" (.str "q") = freshSession rowTpl
  ∧ (freshSession rowTpl).addBlock "zzz" = (freshSession rowTpl, some (.blockNotDefined "zzz"))
  ∧ (freshSession rowTpl).addBlockOpt "zzz" = freshSession rowTpl :=
  c5_unknown_names_leave_state_unchanged (freshSession rowTpl) "zzz" (.str "q")
    (by decide!) (by decide!)

/-- C3: snapshot isolation.  (i) The instance created by `addBlockByNo`
stores a copy of the current values of exactly the variables local to the
block (its `blockVarNoToVarNoMap` image under the current value table),
appended as the single new entry of the instance list; (ii) a later
`setVariable` changes neither the instance list (with its stored
snapshots) nor the dynamic block records; (iii) once the main block has an
instance, output generation reads no current variable value at all: its
result over a session with any replacement value table `w` is the same
output and the same final state apart from that table. -/
theorem c3_instance_snapshots_isolated (s : Session) (blockNo : Nat) (name : String)
    (v : JSValue) (w : List String) (fuel : Nat) :
    (s.addBlockByNo blockNo).blockInstTab.getLast?.map (fun i => i.blockVarTab)
        = some ((s.template.blockTab.getD blockNo {}).blockVarNoToVarNoMap.map
            (fun varNo => s.varValuesTab.getD varNo ""))
  ∧ (s.addBlockByNo blockNo).blockInstTab.length = s.blockInstTab.length + 1
  ∧ (s.setVariable name v).1.blockInstTab = s.blockInstTab
  ∧ (s.setVariable name v).1.blockDynTab = s.blockDynTab
  ∧ ((s.blockDynTab.getD 0 dfltDyn).instances ≠ 0 →
      Session.generateOutputArray fuel { s with varValuesTab := w }
        = (Session.generateOutputArray fuel s).map
            (fun r => (r.1, { r.2 with varValuesTab := w }))) := by
  refine ⟨?_, ?_, ?_, ?_, ?_⟩
  · unfold Session.addBlockByNo
    simp only []
    split <;> simp [List.getLast?_concat]
  · unfold Session.addBlockByNo
    simp only []
    split <;> simp [List.length_set]
  · by_cases hv : s.template.lookupVariableName name = -1 <;>
      simp [Session.setVariable, hv]
  · by_cases hv : s.template.lookupVariableName name = -1 <;>
      simp [Session.setVariable, hv]
  · intro h
    simp only [Session.generateOutputArray]
    simp [h]
    split <;> simp_all [Except.map]

/-- C3 witness: a session on the row template with the main block already
added; the snapshot equations and both frame properties hold there with
the replacement table `["QQ"]`. -/
theorem c3_instance_snapshots_isolated_witness :
    (((freshSession rowTpl).addBlockByNo 0).addBlockByNo 1).blockInstTab.getLast?.map
        (fun i => i.blockVarTab)
      = some ((rowTpl.blockTab.getD 1 {}).blockVarNoToVarNoMap.map
          (fun varNo => ((freshSession rowTpl).addBlockByNo 0).varValuesTab.getD varNo ""))
  ∧ (((freshSession rowTpl).addBlockByNo 0).addBlockByNo 1).blockInstTab.length
      = ((freshSession rowTpl).addBlockByNo 0).blockInstTab.length + 1
  ∧ (((freshSession rowTpl).addBlockByNo 0).setVariable "zzz" (.str "q")).1.blockInstTab
      = ((freshSession rowTpl).addBlockByNo 0).blockInstTab
  ∧ (((freshSession rowTpl).addBlockByNo 0).setVariable "zzz" (.str "q")).1.blockDynTab
      = ((freshSession rowTpl).addBlockByNo 0).blockDynTab
  ∧ Session.generateOutputArray 30
        { (freshSession rowTpl).addBlockByNo 0 with varValuesTab := ["QQ"] }
      = (Session.generateOutputArray 30 ((freshSession rowTpl).addBlockByNo 0)).map
          (fun r => (r.1, { r.2 with varValuesTab := ["QQ"] })) := by
  have h := c3_instance_snapshots_isolated ((freshSession rowTpl).addBlockByNo 0) 1 "zzz"
    (.str "q") ["QQ"] 30
  exact ⟨h.1, h.2.1, h.2.2.1, h.2.2.2.1, h.2.2.2.2 (by decide!)⟩

/-- Excluding a template range leaves the parser parameters and the whole
conditional state unchanged. -/
theorem excludeTemplateRange_fields (st : PState) (a b : Nat) :
    (excludeTemplateRange st a b).pParms = st.pParms
  ∧ (excludeTemplateRange st a b).condLevel = st.condLevel
  ∧ (excludeTemplateRange st a b).condEnabled = st.condEnabled
  ∧ (excludeTemplateRange st a b).condPassed = st.condPassed :=
  ⟨rfl, rfl, rfl, rfl⟩

/-- Condition-expression evaluation reads only the parser parameters. -/
theorem evaluateCondition_congr (st st2 : PState) (h : st2.pParms = st.pParms)
    (e : List Char) : evaluateCondition st2 e = evaluateCondition st e := by
  simp [evaluateCondition, h]

/-- `isCondEnabled` reads only `condEnabled`. -/
theorem isCondEnabled_congr (st st2 : PState) (h : st2.condEnabled = st.condEnabled)
    (lvl : Int) : isCondEnabled st2 lvl = isCondEnabled st lvl := by
  simp [isCondEnabled, h]

/-- `setVariable` with an unknown name: error, state untouched. -/
theorem setVariable_unknown (s : Session) (n : String) (v : JSValue)
    (h : s.template.lookupVariableName n = -1) :
    s.setVariable n v = (s, some (.variableNotDefined n)) := by
  simp [Session.setVariable, h]

/-- `setVariableOpt` with an unknown name: no-op. -/
theorem setVariableOpt_unknown (s : Session) (n : String) (v : JSValue)
    (h : s.template.lookupVariableName n = -1) :
    s.setVariableOpt n v = s := by
  simp [Session.setVariableOpt, h]

/-- `addBlock` with an unknown name: error, state untouched. -/
theorem addBlock_unknown (s : Session) (n : String)
    (h : s.template.lookupBlockName n = -1) :
    s.addBlock n = (s, some (.blockNotDefined n)) := by
  simp [Session.addBlock, h]

/-- `addBlockOpt` with an unknown name: no-op. -/
theorem addBlockOpt_unknown (s : Session) (n : String)
    (h : s.template.lookupBlockName n = -1) :
    s.addBlockOpt n = s := by
  simp [Session.addBlockOpt, h, Session.addBlocksByNo]

/-- A block table of unnamed blocks resolves no name. -/
theorem lookupBlockNoAux_all_none (tab : List BlockRec) (n : String) :
    ∀ (i : Nat) (acc : Int), tab.all (fun b => b.blockName.isNone) = true →
      lookupBlockNoAux tab n i acc = acc := by
  induction tab with
  | nil => intro i acc _; rfl
  | cons b t ih =>
    intro i acc h
    simp only [List.all_cons, Bool.and_eq_true] at h
    have hb : b.blockName ≠ some n := by
      cases hx : b.blockName <;> simp_all
    unfold lookupBlockNoAux
    simp only [hb, if_neg]
    simpa using ih (i + 1) acc h.2

/-- The conditional-chain template has no variables and no named blocks,
so every name misses both lookups. -/
theorem condChainTpl_lookups (n : String) :
    condChainTpl.lookupVariableName n = -1 ∧ condChainTpl.lookupBlockName n = -1 := by
  constructor
  · rw [ParsedTemplate.lookupVariableName,
      show condChainTpl.varTab = [] from by decide!]
    rfl
  · rw [ParsedTemplate.lookupBlockName]
    exact lookupBlockNoAux_all_none _ n 0 (-1) (by decide!)

/-- Any call sequence leaves the conditional-chain session in one of two
states: the fresh session or the once-generated session. -/
theorem condChain_session_inv (cs : List Call) :
    ∀ s, (s = freshSession condChainTpl ∨ s = condChainSes2) →
      (applySeq s cs = freshSession condChainTpl ∨ applySeq s cs = condChainSes2) := by
  induction cs with
  | nil => intro s hs; simpa [applySeq] using hs
  | cons c t ih =>
    intro s hs
    have step : applyCall s c = freshSession condChainTpl ∨ applyCall s c = condChainSes2 := by
      have htpl : s.template = condChainTpl := by
        rcases hs with h | h <;> subst h
        · decide!
        · decide!
      cases c with
      | setVar n v =>
        rw [show applyCall s (.setVar n v) = (s.setVariable n v).1 from rfl,
          setVariable_unknown s n v (htpl ▸ (condChainTpl_lookups n).1)]
        exact hs
      | setVarOpt n v =>
        rw [show applyCall s (.setVarOpt n v) = s.setVariableOpt n v from rfl,
          setVariableOpt_unknown s n v (htpl ▸ (condChainTpl_lookups n).1)]
        exact hs
      | setVarEsc n v =>
        rw [show applyCall s (.setVarEsc n v) = (s.setVariable n (.str (escapeHtml v))).1
            from rfl,
          setVariable_unknown s n _ (htpl ▸ (condChainTpl_lookups n).1)]
        exact hs
      | setVarOptEsc n v =>
        rw [show applyCall s (.setVarOptEsc n v) = s.setVariableOpt n (.str (escapeHtml v))
            from rfl,
          setVariableOpt_unknown s n _ (htpl ▸ (condChainTpl_lookups n).1)]
        exact hs
      | addBlk n =>
        rw [show applyCall s (.addBlk n) = (s.addBlock n).1 from rfl,
          addBlock_unknown s n (htpl ▸ (condChainTpl_lookups n).2)]
        exact hs
      | addBlkOpt n =>
        rw [show applyCall s (.addBlkOpt n) = s.addBlockOpt n from rfl,
          addBlockOpt_unknown s n (htpl ▸ (condChainTpl_lookups n).2)]
        exact hs
      | reset =>
        rcases hs with h | h <;> subst h
        · exact Or.inl (by decide!)
        · exact Or.inl (by decide!)
      | generate =>
        rcases hs with h | h <;> subst h
        · exact Or.inr (by decide!)
        · exact Or.inr (by decide!)
    exact ih (applyCall s c) step

/-- Conditional-state congruence: the conditional commands only care about
fields `excludeTemplateRange` does not touch, so the excluded state can be
replaced by the original in their subcomputations. -/
theorem evaluateCondition_blockTab (st : PState) (tb : List BlockRec) (e : List Char) :
    evaluateCondition { st with blockTab := tb } e = evaluateCondition st e := rfl

theorem isCondEnabled_blockTab (st : PState) (tb : List BlockRec) (lvl : Int) :
    isCondEnabled { st with blockTab := tb } lvl = isCondEnabled st lvl := rfl

/-- C2: the conditional-branch enabling rule.  (1) A `$if` branch is
enabled iff its enclosing context is enabled and its expression is true
(no branch of the new level can have been taken yet); (2) a `$elseIf`
branch is enabled iff the enclosing context is enabled, no earlier branch
at this level has been taken, and its expression is true; (3) a `$else`
branch obeys the same rule without an expression.  Consequently (4,5) the
template `$if a … $elseIf b … $elseIf c … $else … $endIf` compiled with
a=false, b=true, c=true renders exactly the `b` branch content `"B"`, and
(6) after every sequence of public-API calls the session still renders
`"B"` — the `c` and `else` contents never appear in any output. -/
theorem c2_conditional_branch_rule (st : PState) (parms : List Char) (t1 t2 : Nat) (b : Bool)
    (hlen : st.condEnabled.length = 30)
    (hlo : -1 ≤ st.condLevel) (hhi : st.condLevel < 29)
    (hb : evaluateCondition st parms = .ok b) :
    (processIfCmd st parms t1 t2).map
        (fun r => r.condEnabled.getD (st.condLevel + 1).toNat false)
      = .ok (isCondEnabled st st.condLevel && b)
  ∧ (0 ≤ st.condLevel →
      (processElseIfCmd st parms t1 t2).map
          (fun r => r.condEnabled.getD st.condLevel.toNat false)
        = .ok (isCondEnabled st (st.condLevel - 1)
               && !(st.condPassed.getD st.condLevel.toNat false) && b))
  ∧ (0 ≤ st.condLevel →
      (processElseCmd st " ".data t1 t2).map
          (fun r => r.condEnabled.getD st.condLevel.toNat false)
        = .ok (isCondEnabled st (st.condLevel - 1)
               && !(st.condPassed.getD st.condLevel.toNat false)))
  ∧ parseTemplate condChainParms 50 = .ok condChainTpl
  ∧ renderOut 30 (freshSession condChainTpl) = .ok "B"
  ∧ (∀ cs : List Call, renderOut 30 (applySeq (freshSession condChainTpl) cs) = .ok "B") := by
  refine ⟨?_, ?_, ?_, by decide!, by decide!, ?_⟩
  · simp only [processIfCmd, excludeTemplateRange, maxCondLevels,
      evaluateCondition_blockTab, isCondEnabled_blockTab]
    rw [if_neg (by push_cast; omega)]
    rw [show st.condLevel + 1 - 1 = st.condLevel from by omega]
    cases hen : isCondEnabled st st.condLevel with
    | true =>
      rw [if_pos rfl, hb]
      simp only [Except.map]
      rw [getD_set_self _ _ _ _ (by rw [hlen]; omega)]
      simp
    | false =>
      rw [if_neg (by simp)]
      simp only [Except.map]
      rw [getD_set_self _ _ _ _ (by rw [hlen]; omega)]
      simp
  · intro h0
    simp only [processElseIfCmd, excludeTemplateRange, maxCondLevels,
      evaluateCondition_blockTab, isCondEnabled_blockTab]
    rw [if_neg (by omega)]
    cases hen : (isCondEnabled st (st.condLevel - 1)
        && !(st.condPassed.getD st.condLevel.toNat false)) with
    | true =>
      have hen2 := hen
      rw [Bool.and_eq_true] at hen2
      rw [if_pos (by exact ⟨hen2.1, hen2.2⟩), hb]
      simp only [Except.map]
      cases hv : b with
      | true =>
        rw [if_pos rfl]
        rw [getD_set_self _ _ _ _ (by rw [hlen]; omega)]
        simp [hen2.1, hen2.2]
      | false =>
        rw [if_neg (by simp)]
        rw [getD_set_self _ _ _ _ (by rw [hlen]; omega)]
        simp
    | false =>
      rw [if_neg (by intro hc; rw [hc.1, hc.2] at hen; exact Bool.noConfusion hen)]
      simp only [Except.map]
      rw [if_neg (by simp)]
      rw [getD_set_self _ _ _ _ (by rw [hlen]; omega)]
      simp
  · intro h0
    simp only [processElseCmd, excludeTemplateRange,
      evaluateCondition_blockTab, isCondEnabled_blockTab]
    rw [if_neg (by decide)]
    rw [if_neg (by omega)]
    cases hen : (isCondEnabled st (st.condLevel - 1)
        && !(st.condPassed.getD st.condLevel.toNat false)) with
    | true =>
      simp only [hen, Except.map]
      simp only [if_true]
      rw [getD_set_self _ _ _ _ (by rw [hlen]; omega)]
    | false =>
      simp only [hen, Except.map, Bool.false_eq_true, if_false]
      rw [getD_set_self _ _ _ _ (by rw [hlen]; omega)]
  · intro cs
    rcases condChain_session_inv cs (freshSession condChainTpl) (Or.inl rfl) with h | h <;> rw [h]
    · decide!
    · decide!

/-- C2 witness: the transition laws applied at a concrete parser state
inside one enabled conditional level, with the expression `b` (true under
the conditional-chain variable set). -/
theorem c2_conditional_branch_rule_witness :
    (processIfCmd c2WitnessSt " b ".data 0 10).map
        (fun r => r.condEnabled.getD (c2WitnessSt.condLevel + 1).toNat false)
      = .ok (isCondEnabled c2WitnessSt c2WitnessSt.condLevel && true)
  ∧ (0 ≤ c2WitnessSt.condLevel →
      (processElseIfCmd c2WitnessSt " b ".data 0 10).map
          (fun r => r.condEnabled.getD c2WitnessSt.condLevel.toNat false)
        = .ok (isCondEnabled c2WitnessSt (c2WitnessSt.condLevel - 1)
               && !(c2WitnessSt.condPassed.getD c2WitnessSt.condLevel.toNat false) && true))
  ∧ (0 ≤ c2WitnessSt.condLevel →
      (processElseCmd c2WitnessSt " ".data 0 10).map
          (fun r => r.condEnabled.getD c2WitnessSt.condLevel.toNat false)
        = .ok (isCondEnabled c2WitnessSt (c2WitnessSt.condLevel - 1)
               && !(c2WitnessSt.condPassed.getD c2WitnessSt.condLevel.toNat false)))
  ∧ parseTemplate condChainParms 50 = .ok condChainTpl
  ∧ renderOut 30 (freshSession condChainTpl) = .ok "B"
  ∧ (∀ cs : List Call, renderOut 30 (applySeq (freshSession condChainTpl) cs) = .ok "B") :=
  c2_conditional_branch_rule c2WitnessSt " b ".data 0 10 true
    (by decide!) (by decide!) (by decide!) (by decide!)

/-- Rendering never touches the block-instance table: all three render
functions thread it unchanged (they write only the output list and the
chain cursors). -/
theorem render_instTab_frame : ∀ (fuel : Nat),
    (∀ g b pl g2, writeBlockInstances fuel g b pl = .ok g2 → g2.blockInstTab = g.blockInstTab)
  ∧ (∀ g i g2, writeBlockInstance fuel g i = .ok g2 → g2.blockInstTab = g.blockInstTab)
  ∧ (∀ g i tp sb vr g2, writeChunks fuel g i tp sb vr = .ok g2 →
       g2.blockInstTab = g.blockInstTab) := by
  intro fuel
  induction fuel with
  | zero =>
    refine ⟨?_, ?_, ?_⟩ <;> intro g <;> intros <;>
      simp_all [writeBlockInstances, writeBlockInstance, writeChunks]
  | succ f ih =>
    obtain ⟨ih1, ih2, ih3⟩ := ih
    refine ⟨?_, ?_, ?_⟩
    · intro g b pl g2 h
      rw [writeBlockInstances] at h
      repeat' (first | (split at h) | (dsimp only [] at h))
      all_goals first
        | exact Except.noConfusion h
        | (cases h; rfl)
        | (refine (ih1 _ _ _ _ h).trans ?_
           dsimp only []
           exact ih2 _ _ _ (by assumption))
    · intro g i g2 h
      rw [writeBlockInstance] at h
      exact ih3 _ _ _ _ _ _ h
    · intro g i tp sb vr g2 h
      rw [writeChunks] at h
      repeat' (first | (split at h) | (dsimp only [] at h))
      all_goals first
        | exact Except.noConfusion h
        | (cases h
           repeat' split
           first | rfl | (dsimp only []; rfl))
        | (refine (ih3 _ _ _ _ _ _ h).trans ?_
           repeat' split
           all_goals first | rfl | (dsimp only []; rfl))
        | (refine (ih3 _ _ _ _ _ _ h).trans ?_
           refine (ih1 _ _ _ _ (by assumption)).trans ?_
           repeat' split
           all_goals first | rfl | (dsimp only []; rfl))

/-- `String.prototype.substring(0, s.length)` is the whole string. -/
theorem jsSubstring_full (s : String) :
    jsSubstring s.data 0 ((s.length : Nat) : Int) = s.data := by
  show (s.data.take s.data.length).drop 0 = s.data
  rw [List.take_length, List.drop_zero]

/-- Rendering a fresh session over the parse result of a command-free,
placeholder-free template emits exactly the template text. -/
theorem mainOnly_render (text : String) (k : Nat) :
    renderOut (k+1+1+1) (freshSession (mainOnlyTpl text)) = .ok text := by
  by_cases hlen : 0 < text.length
  · simp [renderOut, Session.generateOutputString, Session.generateOutputArray,
      freshSession, Session.reset, mainOnlyTpl, Session.addBlockByNo,
      writeBlockInstances, writeBlockInstance, writeChunks, dfltDyn, dfltInst,
      hlen, jsSubstring_full, listToString, String.join]
  · have h0 : text.length = 0 := by omega
    have he : text = "" := by
      cases text with
      | mk d => simp_all [String.length]
    subst he
    simp [renderOut, Session.generateOutputString, Session.generateOutputArray,
      freshSession, Session.reset, mainOnlyTpl, Session.addBlockByNo,
      writeBlockInstances, writeBlockInstance, writeChunks, dfltDyn, dfltInst,
      String.join]

/-- `addBlockByNo` appends exactly one record to the instance table. -/
theorem addBlockByNo_len (s : Session) (b : Nat) :
    (s.addBlockByNo b).blockInstTab.length = s.blockInstTab.length + 1 := by
  unfold Session.addBlockByNo
  dsimp only
  split <;> simp

/-- When the main block has no instance yet, a successful
`generateOutputArray` leaves the session with exactly one more instance
than before: the automatically added main-block instance. -/
theorem genOut_auto_add (f : Nat) (s : Session) (r : List String × Session)
    (hz : (s.blockDynTab.getD 0 dfltDyn).instances = 0)
    (h : s.generateOutputArray f = .ok r) :
    r.2.blockInstTab.length = s.blockInstTab.length + 1 := by
  simp only [Session.generateOutputArray] at h
  rw [if_pos hz] at h
  split at h
  · exact Except.noConfusion h
  · cases h
    rename_i g2 heq
    have hfr := (render_instTab_frame f).1 _ _ _ _ heq
    simp only [hfr]
    exact addBlockByNo_len s 0

/-- When the main block already has an instance, a successful
`generateOutputArray` adds no instance at all. -/
theorem genOut_no_auto_add (f : Nat) (s : Session) (r : List String × Session)
    (hz : ¬ (s.blockDynTab.getD 0 dfltDyn).instances = 0)
    (h : s.generateOutputArray f = .ok r) :
    r.2.blockInstTab = s.blockInstTab := by
  simp only [Session.generateOutputArray] at h
  rw [if_neg hz] at h
  split at h
  · exact Except.noConfusion h
  · cases h
    rename_i g2 heq
    exact (render_instTab_frame f).1 _ _ _ _ heq

/-- C7: a template text containing no command start (`<!--`) and no
variable-placeholder start (`$` + open brace) parses to the bare
main-block template, and `generateOutputString` on a fresh session with no
prior calls returns exactly the original text; moreover, for every session
whose implicit root block was never added, a successful output generation
adds exactly one instance automatically (the instance table grows by one),
while a session whose root block already has an instance gets none added
(the instance table is returned unchanged). -/
theorem c7_command_free_identity_and_auto_root (text : String) (fuel : Nat)
    (hc : jsIndexOf text.data cmdStartStr 0 = -1)
    (hv : jsIndexOf text.data varStartStr 0 = -1)
    (hf : 1 ≤ fuel) :
    parseTemplate (oneFileParms text []) fuel = .ok (mainOnlyTpl text)
  ∧ renderOut (fuel + 2) (freshSession (mainOnlyTpl text)) = .ok text
  ∧ (∀ (f : Nat) (s : Session) (r : List String × Session),
       (s.blockDynTab.getD 0 dfltDyn).instances = 0 →
       s.generateOutputArray f = .ok r →
       r.2.blockInstTab.length = s.blockInstTab.length + 1)
  ∧ (∀ (f : Nat) (s : Session) (r : List String × Session),
       (s.blockDynTab.getD 0 dfltDyn).instances ≠ 0 →
       s.generateOutputArray f = .ok r →
       r.2.blockInstTab = s.blockInstTab) := by
  obtain ⟨f, rfl⟩ : ∃ g, fuel = g + 1 := ⟨fuel - 1, by omega⟩
  have hc0 : jsIndexOf text.data cmdStartStr ((0 : Nat) : Int) = -1 := by
    simpa using hc
  have hv0 : jsIndexOf text.data varStartStr ((0 : Nat) : Int) = -1 := by
    simpa using hv
  refine ⟨?_, ?_, genOut_auto_add, genOut_no_auto_add⟩
  · simp [parseTemplate, oneFileParms, parseTemplateCommands, beginMainBlock,
      registerBlock, updBlock, pLookupBlockName, endMainBlock,
      checkBlockDefinitionsComplete, parseTemplateVariables,
      associateVariablesWithBlocks, hc0, hv0, hc, hv, mainOnlyTpl, maxNestingLevel,
      maxCondLevels]
  · show renderOut (f+1+1+1) (freshSession (mainOnlyTpl text)) = .ok text
    exact mainOnly_render text f

/-- C7 witness: the command-free text `"Hello"` satisfies the hypotheses,
parses to its bare main-block template, and renders to itself. -/
theorem c7_command_free_identity_and_auto_root_witness :
    (jsIndexOf "Hello".data cmdStartStr 0 = -1
     ∧ jsIndexOf "Hello".data varStartStr 0 = -1
     ∧ (1 : Nat) ≤ 1)
  ∧ (parseTemplate (oneFileParms "Hello" []) 1 = .ok (mainOnlyTpl "Hello")
     ∧ renderOut 3 (freshSession (mainOnlyTpl "Hello")) = .ok "Hello"
     ∧ (∀ (f : Nat) (s : Session) (r : List String × Session),
          (s.blockDynTab.getD 0 dfltDyn).instances = 0 →
          s.generateOutputArray f = .ok r →
          r.2.blockInstTab.length = s.blockInstTab.length + 1)
     ∧ (∀ (f : Nat) (s : Session) (r : List String × Session),
          (s.blockDynTab.getD 0 dfltDyn).instances ≠ 0 →
          s.generateOutputArray f = .ok r →
          r.2.blockInstTab = s.blockInstTab)) :=
  ⟨⟨by decide!, by decide!, by decide!⟩,
   c7_command_free_identity_and_auto_root "Hello" 1 (by decide!) (by decide!) (by decide!)⟩


/-- Re-linking an instance's `nextBlockInstNo` never changes the block
numbers stored in the instance table. -/
theorem map_blockNo_setNext (l : List BlockInstRec) (i : Nat) (v : Int) :
    ((l.set i { l.getD i dfltInst with nextBlockInstNo := v }).map (fun b => b.blockNo))
      = l.map (fun b => b.blockNo) := by
  induction l generalizing i with
  | nil => simp
  | cons a t ih =>
    cases i with
    | zero => simp [List.getD_cons_zero, List.set_cons_zero]
    | succ m => rw [List.getD_cons_succ, List.set_cons_succ, List.map_cons,
        List.map_cons, ih m]

/-- `addBlockByNo` never touches the parsed template. -/
theorem addBlockByNo_template (s : Session) (b : Nat) :
    (s.addBlockByNo b).template = s.template := rfl

/-- `addBlockByNo b` appends exactly one instance of block `b` (by block
number) to the instance table. -/
theorem addBlockByNo_map (s : Session) (b : Nat) :
    (s.addBlockByNo b).blockInstTab.map (fun r => r.blockNo)
      = s.blockInstTab.map (fun r => r.blockNo) ++ [b] := by
  unfold Session.addBlockByNo
  dsimp only
  split
  · rw [List.map_append, map_blockNo_setNext]
    simp
  · rw [List.map_append]
    simp

/-- `addBlocksByNo` appends exactly one instance per block on the
same-name chain, in chain order. -/
theorem addBlocksByNo_blockNos : ∀ (fuel : Nat) (s : Session) (i : Int),
    (Session.addBlocksByNo fuel s i).blockInstTab.map (fun r => r.blockNo)
      = s.blockInstTab.map (fun r => r.blockNo)
        ++ chainBlockNos s.template.blockTab fuel i := by
  intro fuel
  induction fuel with
  | zero => intro s i; simp [Session.addBlocksByNo, chainBlockNos]
  | succ f ih =>
    intro s i
    rw [Session.addBlocksByNo, chainBlockNos]
    by_cases hi : i = -1
    · simp [hi]
    · rw [if_neg hi, if_neg hi, ih, addBlockByNo_map]
      simp [addBlockByNo_template, List.append_assoc]

/-- C1 counterexample: in the template with two block definitions sharing
the name `b` (definition order `[1, 2]`), `addBlock "b"` creates one
instance per definition but in the order `[2, 1]` — the reverse of the
definitions' order of appearance — because the name lookup returns the
most recently registered definition and the `nextWithSameName` chain walks
backwards. -/
theorem c1_addBlock_order_counterexample :
    parseTemplate twoBlocksParms 50 = .ok twoBlocksTpl
  ∧ (twoBlocksTpl.blockTab.getD 1 {}).blockName = some "b"
  ∧ (twoBlocksTpl.blockTab.getD 2 {}).blockName = some "b"
  ∧ sameNameIdxs twoBlocksTpl.blockTab "b" = [1, 2]
  ∧ ((freshSession twoBlocksTpl).addBlock "b").2 = none
  ∧ ((freshSession twoBlocksTpl).addBlock "b").1.blockInstTab.map (fun r => r.blockNo)
      = [2, 1] := by
  decide!

/-- C1 amended: when the registered same-name chain of `n` enumerates
exactly the definitions named `n` in reverse definition order (as every
parser-produced table does), `addBlock n` on an unknown name fails with
`BlockNotDefinedError` leaving the session unchanged, and otherwise
succeeds, creating exactly one instance per block definition named `n` —
in reverse definition order, not definition order. -/
theorem c1_addBlock_reverse_definition_order (s : Session) (n : String)
    (hch : chainBlockNos s.template.blockTab (s.template.blockTab.length + 1)
             (s.template.lookupBlockName n)
           = (sameNameIdxs s.template.blockTab n).reverse) :
    (s.template.lookupBlockName n = -1 →
       s.addBlock n = (s, some (.blockNotDefined n)))
  ∧ (s.template.lookupBlockName n ≠ -1 →
       (s.addBlock n).2 = none
     ∧ (s.addBlock n).1.blockInstTab.map (fun r => r.blockNo)
         = s.blockInstTab.map (fun r => r.blockNo)
           ++ (sameNameIdxs s.template.blockTab n).reverse) := by
  constructor
  · intro h
    simp [Session.addBlock, h]
  · intro h
    constructor
    · simp [Session.addBlock, h]
    · rw [← hch, ← addBlocksByNo_blockNos]
      simp [Session.addBlock, h]

/-- C1 witness: the two-definition template satisfies the chain
hypothesis, and `addBlock "b"` on a fresh session appends the instances
`[2, 1]` = reverse of `[1, 2]`. -/
theorem c1_addBlock_reverse_definition_order_witness :
    chainBlockNos (freshSession twoBlocksTpl).template.blockTab
        ((freshSession twoBlocksTpl).template.blockTab.length + 1)
        ((freshSession twoBlocksTpl).template.lookupBlockName "b")
      = (sameNameIdxs (freshSession twoBlocksTpl).template.blockTab "b").reverse
  ∧ (((freshSession twoBlocksTpl).template.lookupBlockName "b" = -1 →
       (freshSession twoBlocksTpl).addBlock "b"
         = (freshSession twoBlocksTpl, some (.blockNotDefined "b")))
  ∧ ((freshSession twoBlocksTpl).template.lookupBlockName "b" ≠ -1 →
       ((freshSession twoBlocksTpl).addBlock "b").2 = none
     ∧ ((freshSession twoBlocksTpl).addBlock "b").1.blockInstTab.map (fun r => r.blockNo)
         = (freshSession twoBlocksTpl).blockInstTab.map (fun r => r.blockNo)
           ++ (sameNameIdxs (freshSession twoBlocksTpl).template.blockTab "b").reverse)) :=
  ⟨by decide!,
   c1_addBlock_reverse_definition_order (freshSession twoBlocksTpl) "b" (by decide!)⟩

theorem rowInsts_length (N : Nat) : (rowInsts N).length = N := by
  simp [rowInsts]

theorem rowInsts_getD (N j : Nat) (h : j < N) :
    (rowInsts N).getD j dfltInst = rowInst N j := by
  simp [rowInsts, List.getD, List.getElem?_map, List.getElem?_range, h]

theorem rowTpl_blockTab :
    rowTpl.blockTab
      = [{ blockName := none, nextWithSameName := -1, tPosBegin := 0,
           tPosContentsBegin := 0, tPosContentsEnd := 49, tPosEnd := 49,
           nestingLevel := 0, parentBlockNo := -1, definitionIsOpen := false,
           blockVarNoToVarNoMap := [], firstVarRefNo := -1, dummy := false },
         { blockName := some "row", nextWithSameName := -1, tPosBegin := 1,
           tPosContentsBegin := 25, tPosContentsEnd := 26, tPosEnd := 48,
           nestingLevel := 1, parentBlockNo := 0, definitionIsOpen := false,
           blockVarNoToVarNoMap := [], firstVarRefNo := -1, dummy := false }] := by
  decide!

theorem rowTpl_chunk_x :
    listToString (jsSubstring rowTpl.templateText 0 1) = "x" := by
  decide!

theorem rowTpl_chunk_R :
    listToString (jsSubstring rowTpl.templateText 25 26) = "R" := by
  decide!

theorem rowTpl_chunk_y :
    listToString (jsSubstring rowTpl.templateText 48 49) = "y" := by
  decide!

theorem rowInsts_getElem? (N j : Nat) :
    (rowInsts N)[j]? = if j < N then some (rowInst N j) else none := by
  by_cases h : j < N <;> simp [rowInsts, List.getElem?_map, List.getElem?_range, h] <;> omega

theorem rowInstTab_getElem_lt (N j : Nat) (h : j < N) :
    (rowInsts N ++ [mainInstRec])[j]? = some (rowInst N j) := by
  rw [List.getElem?_append_left (by rw [rowInsts_length]; omega)]
  rw [rowInsts_getElem?, if_pos h]

theorem rowInstTab_getD_lt (N j : Nat) (h : j < N) :
    (rowInsts N ++ [mainInstRec]).getD j dfltInst = rowInst N j := by
  rw [List.getD_append _ _ _ _ (by rw [rowInsts_length]; omega)]
  exact rowInsts_getD N j h

theorem rowInstTab_getD_main (N : Nat) :
    (rowInsts N ++ [mainInstRec]).getD N dfltInst = mainInstRec := by
  have h := getD_append_len (rowInsts N) mainInstRec dfltInst
  rwa [rowInsts_length] at h

theorem rowInsts_snoc (k : Nat) (hk : 1 ≤ k) :
    (rowInsts k).set (k-1)
        { (rowInsts k).getD (k-1) dfltInst with nextBlockInstNo := ((k : Nat) : Int) }
      ++ [rowInst (k+1) k] = rowInsts (k+1) := by
  apply List.ext_getElem?
  intro j
  by_cases h1 : j < k
  · rw [List.getElem?_append_left (by rw [List.length_set, rowInsts_length]; omega)]
    rw [List.getElem?_set]
    by_cases h2 : k - 1 = j
    · rw [if_pos h2, if_pos (by rw [rowInsts_length]; omega)]
      rw [← h2]
      rw [rowInsts_getD k (k-1) (by omega)]
      rw [rowInsts_getElem?, if_pos (by omega)]
      have e1 : ¬ (k - 1 = k) := by omega
      have e2 : k - 1 + 1 = k := by omega
      simp [rowInst, Nat.add_sub_cancel, e1, e2]
    · rw [if_neg h2]
      rw [rowInsts_getElem?, rowInsts_getElem?, if_pos h1, if_pos (by omega)]
      have e1 : ¬ (j = k - 1) := by omega
      have e2 : ¬ (j = k) := by omega
      simp [rowInst, Nat.add_sub_cancel, e1, e2]
  · have hlen : ((rowInsts k).set (k-1)
        { (rowInsts k).getD (k-1) dfltInst with
          nextBlockInstNo := ((k : Nat) : Int) }).length = k := by
      rw [List.length_set, rowInsts_length]
    by_cases h3 : j = k
    · subst h3
      rw [List.getElem?_append_right (by omega)]
      rw [hlen]
      rw [rowInsts_getElem?, if_pos (by omega)]
      simp
    · rw [List.getElem?_append_right (by omega)]
      rw [hlen]
      rw [rowInsts_getElem?, if_neg (by omega)]
      have : j - k ≥ 1 := by omega
      rw [List.getElem?_cons]
      rw [if_neg (by omega)]
      simp

theorem row_chain (N : Nat) : ∀ (r j : Nat), j + r = N →
    ∀ (d0 : BlockDynRec) (outp : List String),
    writeBlockInstances (r+1+1)
      { template := rowTpl,
        blockDynTab := [d0,
          { instances := N, firstBlockInstNo := 0,
            lastBlockInstNo := ((N-1 : Nat) : Int),
            currBlockInstNo := if r = 0 then -1 else ((j : Nat) : Int) }],
        blockInstTab := rowInsts N ++ [mainInstRec],
        out := outp } 1 0
    = .ok { template := rowTpl,
            blockDynTab := [d0,
              { instances := N, firstBlockInstNo := 0,
                lastBlockInstNo := ((N-1 : Nat) : Int), currBlockInstNo := -1 }],
            blockInstTab := rowInsts N ++ [mainInstRec],
            out := outp ++ List.replicate r "R" } := by
  intro r
  induction r with
  | zero =>
    intro j hj d0 outp
    rw [writeBlockInstances]
    simp
  | succ r ih =>
    intro j hj d0 outp
    have hjN : j < N := by omega
    have hjne : ((j : Nat) : Int) ≠ -1 := by omega
    have hc : (if r + 1 = 0 then (-1 : Int) else ((j : Nat) : Int)) = ((j : Nat) : Int) := by
      simp
    rw [writeBlockInstances]
    rw [hc]
    dsimp only
    rw [List.getD_cons_succ, List.getD_cons_zero]
    rw [if_neg hjne]
    rw [Int.toNat_natCast]
    rw [rowInstTab_getD_lt N j hjN]
    have hpl : (rowInst N j).parentInstLevel = 0 := rfl
    rw [hpl]
    rw [if_neg (by omega), if_neg (by omega)]
    rw [writeBlockInstance]
    dsimp only
    rw [rowInstTab_getD_lt N j hjN]
    have hbn : (rowInst N j).blockNo = 1 := rfl
    rw [hbn]
    rw [rowTpl_blockTab]
    rw [List.getD_cons_succ, List.getD_cons_zero]
    dsimp only
    rw [writeChunks]
    dsimp only
    simp only [rowTpl_blockTab, List.getD_cons_succ, List.getD_cons_zero,
      List.length_cons, List.length_nil, ne_eq, List.getD_eq_getElem?_getD,
      rowInstTab_getElem_lt N j hjN, Option.getD_some, hbn,
      List.getElem?_cons_succ, List.getElem?_cons_zero]
    norm_num
    rw [rowTpl_chunk_R]
    have hnx : (rowInst N j).nextBlockInstNo
        = if j = N - 1 then (-1 : Int) else ((j + 1 : Nat) : Int) := rfl
    rw [hnx]
    have hsw : (if j = N - 1 then (-1 : Int) else ((j + 1 : Nat) : Int))
        = (if r = 0 then (-1 : Int) else ((j + 1 : Nat) : Int)) := by
      by_cases hr : r = 0
      · rw [if_pos (by omega), if_pos hr]
      · rw [if_neg (by omega), if_neg hr]
    rw [hsw]
    have hrec := ih (j+1) (by omega) d0 (outp ++ ["R"])
    rw [show (outp ++ ["R"]) ++ List.replicate r "R"
        = outp ++ List.replicate (r+1) "R" from by
      simp [List.replicate_succ]] at hrec
    exact hrec

theorem rowInstTab_getElem_main (N : Nat) :
    (rowInsts N ++ [mainInstRec])[N]? = some mainInstRec := by
  rw [List.getElem?_append_right (by rw [rowInsts_length])]
  rw [rowInsts_length]
  simp

theorem row_main_render (N : Nat) (hN : 1 ≤ N) :
    writeBlockInstances (N+4+1)
      { template := rowTpl,
        blockDynTab := [
          { instances := 1, firstBlockInstNo := ((N : Nat) : Int),
            lastBlockInstNo := ((N : Nat) : Int), currBlockInstNo := ((N : Nat) : Int) },
          { instances := N, firstBlockInstNo := 0,
            lastBlockInstNo := ((N-1 : Nat) : Int), currBlockInstNo := 0 }],
        blockInstTab := rowInsts N ++ [mainInstRec],
        out := [] } 0 (-1)
    = .ok { template := rowTpl,
            blockDynTab := [
              { instances := 1, firstBlockInstNo := ((N : Nat) : Int),
                lastBlockInstNo := ((N : Nat) : Int), currBlockInstNo := -1 },
              { instances := N, firstBlockInstNo := 0,
                lastBlockInstNo := ((N-1 : Nat) : Int), currBlockInstNo := -1 }],
            blockInstTab := rowInsts N ++ [mainInstRec],
            out := ["x"] ++ List.replicate N "R" ++ ["y"] } := by
  have hNne : ((N : Nat) : Int) ≠ -1 := by omega
  rw [writeBlockInstances]
  dsimp only
  rw [List.getD_cons_zero]
  rw [if_neg hNne]
  rw [Int.toNat_natCast]
  rw [rowInstTab_getD_main N]
  have hplm : mainInstRec.parentInstLevel = -1 := rfl
  rw [hplm]
  rw [if_neg (by omega), if_neg (by omega)]
  rw [writeBlockInstance]
  dsimp only
  rw [rowInstTab_getD_main N]
  have hbnm : mainInstRec.blockNo = 0 := rfl
  rw [hbnm]
  rw [rowTpl_blockTab]
  rw [List.getD_cons_zero]
  dsimp only
  rw [writeChunks]
  dsimp only
  simp only [rowTpl_blockTab, List.getD_cons_succ, List.getD_cons_zero,
    List.length_cons, List.length_nil, ne_eq, List.getD_eq_getElem?_getD,
    rowInstTab_getElem_main N, Option.getD_some, hbnm,
    List.getElem?_cons_succ, List.getElem?_cons_zero]
  norm_num
  rw [rowTpl_chunk_x]
  have him : mainInstRec.instanceLevel = 0 := rfl
  rw [him, Nat.cast_zero]
  have hrc := row_chain N N 0 (by omega)
    { instances := 1, firstBlockInstNo := ((N : Nat) : Int),
      lastBlockInstNo := ((N : Nat) : Int), currBlockInstNo := ((N : Nat) : Int) }
    ["x"]
  rw [if_neg (show ¬ N = 0 by omega), Nat.cast_zero] at hrc
  rw [hrc]
  dsimp only
  rw [writeChunks]
  dsimp only
  simp only [rowTpl_blockTab, List.getD_cons_succ, List.getD_cons_zero,
    List.length_cons, List.length_nil, ne_eq, List.getD_eq_getElem?_getD,
    rowInstTab_getElem_main N, Option.getD_some, hbnm,
    List.getElem?_cons_succ, List.getElem?_cons_zero]
  norm_num
  rw [rowTpl_chunk_y]
  have hnm : mainInstRec.nextBlockInstNo = -1 := rfl
  rw [hnm]
  rw [writeBlockInstances]
  simp [List.getD_cons_zero]

theorem addBlocksByNo_neg1 (fuel : Nat) (s : Session) :
    Session.addBlocksByNo fuel s (-1) = s := by
  cases fuel <;> simp [Session.addBlocksByNo]

theorem addBlock_unique_step (s : Session) (n : String) (b : Nat)
    (hl : s.template.lookupBlockName n = ((b : Nat) : Int))
    (hu : (s.template.blockTab.getD b {}).nextWithSameName = -1) :
    (s.addBlock n).1 = s.addBlockByNo b := by
  unfold Session.addBlock
  rw [hl]
  rw [if_neg (by omega)]
  rw [Session.addBlocksByNo]
  rw [if_neg (by omega)]
  rw [Int.toNat_natCast]
  dsimp only
  rw [addBlockByNo_template, hu]
  rw [addBlocksByNo_neg1]

theorem rowTpl_lookup_row : rowTpl.lookupBlockName "row" = 1 := by
  decide!

theorem rowTpl_nextWith_row : (rowTpl.blockTab.getD 1 {}).nextWithSameName = -1 := by
  decide!

theorem iterAdd_row (N : Nat) (hN : 1 ≤ N) :
    (iterAddBlock (freshSession rowTpl) "row" N).template = rowTpl
  ∧ (iterAddBlock (freshSession rowTpl) "row" N).blockDynTab
      = [dfltDyn, { instances := N, firstBlockInstNo := 0,
                    lastBlockInstNo := ((N-1 : Nat) : Int), currBlockInstNo := -1 }]
  ∧ (iterAddBlock (freshSession rowTpl) "row" N).blockInstTab = rowInsts N := by
  induction N with
  | zero => omega
  | succ k ih =>
    by_cases hk : k = 0
    · subst hk
      refine ⟨by decide!, by decide!, by decide!⟩
    · obtain ⟨ih1, ih2, ih3⟩ := ih (by omega)
      rw [iterAddBlock]
      rw [addBlock_unique_step _ _ 1 (by rw [ih1]; exact rowTpl_lookup_row)
            (by rw [ih1]; exact rowTpl_nextWith_row)]
      refine ⟨by rw [addBlockByNo_template, ih1], ?_, ?_⟩
      · unfold Session.addBlockByNo
        dsimp only
        rw [ih2, ih3]
        rw [List.getD_cons_succ, List.getD_cons_zero]
        dsimp only
        rw [List.set_cons_succ, List.set_cons_zero]
        rw [rowInsts_length]
        rw [if_neg (by omega)]
        rw [Nat.add_sub_cancel]
      · unfold Session.addBlockByNo
        dsimp only
        rw [ih2, ih3]
        rw [List.getD_cons_succ, List.getD_cons_zero]
        dsimp only
        rw [if_pos (by omega : ((k-1 : Nat) : Int) ≠ -1)]
        rw [Int.toNat_natCast]
        rw [rowInsts_length]
        rw [ih1, rowTpl_blockTab]
        rw [List.getD_cons_succ, List.getD_cons_zero]
        dsimp only
        rw [List.set_cons_succ, List.set_cons_zero]
        rw [if_neg (by omega : ¬ ((0 : Int) = -1))]
        rw [if_neg (by omega : ¬ ((0 : Int) = -1))]
        rw [Int.toNat_zero]
        rw [List.getD_cons_zero]
        try dsimp only
        try rw [List.map_nil]
        try rw [Nat.cast_zero]
        have hdz : ((dfltDyn.instances : Nat) : Int) = 0 := rfl
        rw [hdz]
        have hlast : rowInst (k+1) k
            = { blockNo := 1, instanceLevel := k, parentInstLevel := 0,
                nextBlockInstNo := -1, blockVarTab := [] } := by
          simp [rowInst, Nat.add_sub_cancel]
        rw [← hlast]
        exact rowInsts_snoc k (by omega)

/-- C6: for the template whose uniquely named block `row` (block 1) has
body `R`, calling `addBlock("row")` `N ≥ 1` times creates exactly `N`
instances of that definition — instance `j` is the `j`-th creation and is
linked to the `j+1`-st (`nextBlockInstNo`), the last one ending the chain,
with the dynamic record counting `N` instances, first `0`, last `N-1` —
and output generation renders exactly `N` copies of the block body in
creation order between the surrounding text chunks. -/
theorem c6_addBlock_n_times_n_instances_in_order (N : Nat) (hN : 1 ≤ N) :
    (iterAddBlock (freshSession rowTpl) "row" N).blockInstTab = rowInsts N
  ∧ (∀ j, j < N → (rowInsts N).getD j dfltInst
      = { blockNo := 1, instanceLevel := j, parentInstLevel := 0,
          nextBlockInstNo := if j = N - 1 then -1 else ((j + 1 : Nat) : Int),
          blockVarTab := [] })
  ∧ (iterAddBlock (freshSession rowTpl) "row" N).blockDynTab
      = [dfltDyn, { instances := N, firstBlockInstNo := 0,
                    lastBlockInstNo := ((N-1 : Nat) : Int), currBlockInstNo := -1 }]
  ∧ (∃ s2, (iterAddBlock (freshSession rowTpl) "row" N).generateOutputArray (N+5)
      = .ok (["x"] ++ List.replicate N "R" ++ ["y"], s2)) := by
  obtain ⟨h1, h2, h3⟩ := iterAdd_row N hN
  refine ⟨h3, fun j hj => rowInsts_getD N j hj, h2, ?_⟩
  have ha1 : ((iterAddBlock (freshSession rowTpl) "row" N).addBlockByNo 0).template
      = rowTpl := by
    rw [addBlockByNo_template, h1]
  have ha2 : ((iterAddBlock (freshSession rowTpl) "row" N).addBlockByNo 0).blockDynTab
      = [{ instances := 1, firstBlockInstNo := ((N : Nat) : Int),
           lastBlockInstNo := ((N : Nat) : Int), currBlockInstNo := -1 },
         { instances := N, firstBlockInstNo := 0,
           lastBlockInstNo := ((N-1 : Nat) : Int), currBlockInstNo := -1 }] := by
    unfold Session.addBlockByNo
    dsimp only
    rw [h2, h3]
    rw [rowInsts_length]
    simp [dfltDyn, List.getD_cons_zero, List.set_cons_zero]
  have ha3 : ((iterAddBlock (freshSession rowTpl) "row" N).addBlockByNo 0).blockInstTab
      = rowInsts N ++ [mainInstRec] := by
    unfold Session.addBlockByNo
    dsimp only
    rw [h2, h3, h1, rowTpl_blockTab]
    simp [dfltDyn, mainInstRec, List.getD_cons_zero]
  simp only [Session.generateOutputArray]
  rw [h2]
  rw [List.getD_cons_zero]
  rw [if_pos (show dfltDyn.instances = 0 from rfl)]
  rw [ha1, ha2, ha3]
  rw [List.map_cons, List.map_cons, List.map_nil]
  dsimp only
  rw [row_main_render N hN]
  exact ⟨_, rfl⟩

/-- C6 witness at `N = 2`: two `addBlock("row")` calls create the two
linked instances and render `x R R y`. -/
theorem c6_addBlock_n_times_n_instances_in_order_witness :
    (1 : Nat) ≤ 2
  ∧ ((iterAddBlock (freshSession rowTpl) "row" 2).blockInstTab = rowInsts 2
     ∧ (∀ j, j < 2 → (rowInsts 2).getD j dfltInst
         = { blockNo := 1, instanceLevel := j, parentInstLevel := 0,
             nextBlockInstNo := if j = 2 - 1 then -1 else ((j + 1 : Nat) : Int),
             blockVarTab := [] })
     ∧ (iterAddBlock (freshSession rowTpl) "row" 2).blockDynTab
         = [dfltDyn, { instances := 2, firstBlockInstNo := 0,
                       lastBlockInstNo := ((2-1 : Nat) : Int), currBlockInstNo := -1 }]
     ∧ (∃ s2, (iterAddBlock (freshSession rowTpl) "row" 2).generateOutputArray (2+5)
         = .ok (["x"] ++ List.replicate 2 "R" ++ ["y"], s2))) :=
  ⟨by decide!, c6_addBlock_n_times_n_instances_in_order 2 (by decide!)⟩

end MT
